import Mathlib

/-!
# Verification of the synthetic T1D menstrual-cycle cohort generator

Shallow embedding of the generation / retrofit / validation pipeline of the
`synthetic-cycle-t1d` repository.  Python floats are modelled as rationals
(`ℚ`), Python ints as `ℤ`/`ℕ`, dates as integer day numbers, and the
`numpy` random draws as explicit parameters (a drawn sample, or a selection
oracle standing for `rng.choice(..., replace=False)`).  Fallible code paths
(Python exceptions such as `ZeroDivisionError` / `int(nan)`) are modelled
with `Option`.
-/

namespace SynthT1D

/-- ASCII lower-casing of a single character, as Python `str.lower` acts on
the ASCII strings appearing in this code base. -/
def lowerChar (c : Char) : Char :=
  if 'A' ≤ c ∧ c ≤ 'Z' then Char.ofNat (c.toNat + 32) else c

/-- ASCII lower-casing of a string (Python `str.lower`). -/
def lowerAscii (s : String) : String :=
  ⟨s.data.map lowerChar⟩

/-- `leadsChars needle hay` holds when `needle` starts `hay`. -/
def leadsChars : List Char → List Char → Bool
  | [], _ => true
  | _ :: _, [] => false
  | a :: as, b :: bs => a = b && leadsChars as bs

/-- Substring search over character lists. -/
def occursChars (needle : List Char) : List Char → Bool
  | [] => leadsChars needle []
  | c :: rest => leadsChars needle (c :: rest) || occursChars needle rest

/-- Python's `needle in hay` substring test. -/
def subOccurs (needle hay : String) : Bool :=
  occursChars needle.data hay.data

/-- Python 3 `round` to an integer: round-half-to-even. -/
def rndHalfEvenZ (q : ℚ) : ℤ :=
  if q - (⌊q⌋ : ℚ) < 1/2 then ⌊q⌋
  else if q - (⌊q⌋ : ℚ) > 1/2 then ⌊q⌋ + 1
  else if ⌊q⌋ % 2 = 0 then ⌊q⌋ else ⌊q⌋ + 1

/-- Python `round(x, 1)`: round to one decimal place, half to even. -/
def round1 (q : ℚ) : ℚ :=
  (rndHalfEvenZ (q * 10) : ℚ) / 10

/-- Mean of a list of rationals (`np.mean`); 0 on the empty list, but every
use below guards the empty case the way the source does. -/
def listMean (l : List ℚ) : ℚ :=
  l.sum / l.length

/-! ## `src/models/cycle_utils.py` — phase arithmetic

Dates are modelled as integer day numbers; subtracting two dates yields the
day difference, matching `(observation_date - lmp_date).days`. -/
/-- `calculate_cycle_day`: day difference modulo a 28-day cycle, 1-based. -/
def calculateCycleDay (lmpDate observationDate : ℤ) : ℤ :=
  (observationDate - lmpDate) % 28 + 1

/-- `get_cycle_phase`: days 1–14 are follicular, the rest luteal. -/
def getCyclePhase (cycleDay : ℤ) : String :=
  if 1 ≤ cycleDay ∧ cycleDay ≤ 14 then "follicular" else "luteal"

/-- `calculate_phase_from_lmp`. -/
def calculatePhaseFromLmp (lmpDate observationDate : ℤ) : String :=
  getCyclePhase (calculateCycleDay lmpDate observationDate)

/-- `PatientGenerator.generate_lmp_for_phase`: the sampled days-ago offset
(uniform on 0–13 for follicular, 14–27 for luteal) is passed explicitly;
the LMP is the observation date minus that offset, in either branch. -/
def generateLmpForPhase (observationDate : ℤ) (_targetPhase : String)
    (daysAgo : ℤ) : ℤ :=
  observationDate - daysAgo

/-! ## Serialized response documents

A `Response` models the content of one serialized QuestionnaireResponse
that RetrofitEngine and CohortValidator consume: the answers at linkIds
1–10 plus the resource-level `authored` timestamp.  Dates are integer day
numbers, decimals are rationals. -/
/-- Python `abs` on a float, as used by the retrofit / tracker code. -/
def ratAbs (q : ℚ) : ℚ :=
  if q < 0 then -q else q

/-- Python `max a b` on rationals. -/
def qmax (a b : ℚ) : ℚ :=
  if a ≤ b then b else a

/-- Python `min a b` on rationals. -/
def qmin (a b : ℚ) : ℚ :=
  if a ≤ b then a else b

/-- Python `max(0, v)` on an int. -/
def zmax0 (v : ℤ) : ℤ :=
  if v < 0 then 0 else v

structure Response where
  /-- linkId 1, `valueInteger`. -/
  age : ℤ
  /-- linkId 3, `valueString`. -/
  deliveryMethod : String
  /-- linkId 4, `valueDate`, as a day number. -/
  lmp : ℤ
  /-- linkId 5, `valueString`. -/
  cycleRegularity : String
  /-- linkId 6, `valueDecimal`. -/
  basalInsulin : ℚ
  /-- linkId 7, `valueDecimal`. -/
  glucose : ℚ
  /-- linkId 8, `valueInteger`. -/
  awakenings : ℤ
  /-- linkId 9, repeated `valueString` answers (empty list = no answer). -/
  symptoms : List String
  /-- linkId 10, `valueString`. -/
  subjective : String
  /-- resource-level `authored` timestamp, as a day number. -/
  authored : ℤ
  deriving DecidableEq

/-! ## `src/retrofit_cohort.py` — phase / intervention re-derivation -/
/-- `extract_phase`: glucose below 122 is follicular, otherwise luteal. -/
def extractPhase (r : Response) : String :=
  if r.glucose < 122 then "follicular" else "luteal"

/-- `is_intervention` (retrofit): the lowercased free-text field contains
`"cycle-aware"`. -/
def isIntervention (r : Response) : Bool :=
  subOccurs "cycle-aware" (lowerAscii r.subjective)

/-! ## `src/validators/cohort_validator.py` — independent re-derivation -/
/-- `CohortValidator._calculate_phase`: phase from the LMP answer and the
`authored` date via `calculate_phase_from_lmp` — not from glucose. -/
def validatorCalculatePhase (r : Response) : String :=
  calculatePhaseFromLmp r.lmp r.authored

/-- The validator's intervention keyword list
(`validate_intervention_subgroup_size` / `validate_intervention_glucose_improvement`). -/
def interventionKeywords : List String :=
  ["cycle-aware", "adjusted my basal", "cycle tracking", "menstrual phase",
   "reduced my basal"]

/-- The validator's intervention test: the text is non-empty and some
keyword occurs in it (both lowercased). -/
def isInterventionValidator (r : Response) : Bool :=
  if r.subjective = "" then false
  else interventionKeywords.any fun k =>
    subOccurs (lowerAscii k) (lowerAscii r.subjective)

/-- A document RetrofitEngine classifies as luteal (glucose 130 ≥ 122) but
CohortValidator classifies as follicular (LMP equals the authored date, so
cycle day 1). -/
def phaseDisagreementResponse : Response :=
  { age := 30
    deliveryMethod := "Insulin Pump"
    lmp := 100
    cycleRegularity := "Very regular (predictable)"
    basalInsulin := 14
    glucose := 130
    awakenings := 1
    symptoms := []
    subjective := "My glucose levels tend to be higher during certain times of the month."
    authored := 100 }

/-! ## `src/models/cohort_params.py` -/
structure CohortParameters where
  ageRange : ℤ × ℤ := (18, 45)
  ageMean : ℚ := 63/2
  ageStd : ℚ := 7
  yearsSinceDiagnosisMin : ℤ := 1
  yearsSinceDiagnosisMax : ℤ := 30
  yearsSinceDiagnosisMean : ℚ := 12
  yearsSinceDiagnosisStd : ℚ := 8
  pumpRatio : ℚ := 13/20
  veryRegularRatio : ℚ := 11/20
  somewhatRegularRatio : ℚ := 3/10
  irregularRatio : ℚ := 3/20
  basalInsulinMean : ℚ := 14
  basalInsulinStd : ℚ := 7/2
  basalInsulinMin : ℚ := 5
  basalInsulinMax : ℚ := 30
  glucoseFollicularMean : ℚ := 118
  glucoseFollicularStd : ℚ := 20
  awakeningsFollicularMean : ℚ := 4/5
  awakeningsFollicularStd : ℚ := 3/5
  nightSweatsProbFollicular : ℚ := 3/25
  dizzinessProbFollicular : ℚ := 1/25
  palpitationsProbFollicular : ℚ := 1/20
  fatigueProbFollicular : ℚ := 9/50
  lutealInsulinIncrease : ℚ := 7/50
  lutealGlucoseIncrease : ℚ := 81/10
  lutealAwakeningsIncrease : ℚ := 3/5
  nightSweatsProbLuteal : ℚ := 11/50
  dizzinessProbLuteal : ℚ := 9/100
  palpitationsProbLuteal : ℚ := 11/100
  fatigueProbLuteal : ℚ := 1/4
  randomSeed : ℤ := 42
  deriving DecidableEq

/-- `DEFAULT_COHORT_PARAMS`. -/
def defaultCohortParams : CohortParameters := {}

/-! ## `src/retrofit_cohort.py` — the three adjustment operations

The `numpy` generator's `rng.choice(candidates, size=k, replace=False)` is
modelled by a selection oracle `sel : List ℕ → ℕ → List ℕ` applied to the
candidate index list and the requested size; theorems that depend on the
selection constrain `sel`'s output to be a `k`-element duplicate-free
subset of the candidates, which is exactly what sampling without
replacement yields. -/
/-- Mean of a list of integers as a rational (`np.mean`). -/
def intMeanQ (values : List ℤ) : ℚ :=
  (values.map fun v => (v : ℚ)).sum / values.length

/-- The candidate indices of `adjust_awakenings`: positions whose value is
`≤ 1` when the mean must increase, `≥ 2` when it must decrease, counted
from position `i`. -/
def candidateIdx (needInc : Bool) : ℕ → List ℤ → List ℕ
  | _, [] => []
  | i, v :: rest =>
    if (if needInc then v ≤ 1 else 2 ≤ v) then
      i :: candidateIdx needInc (i + 1) rest
    else candidateIdx needInc (i + 1) rest

/-- The in-place `±1` edit of `adjust_awakenings`: increment, or decrement
floored at 0. -/
def editValue (needInc : Bool) (v : ℤ) : ℤ :=
  if needInc then v + 1 else zmax0 (v - 1)

/-- Apply the `±1` edits at the selected positions (positions counted from
`i`). -/
def applyEdits (needInc : Bool) (toChange : List ℕ) : ℕ → List ℤ → List ℤ
  | _, [] => []
  | i, v :: rest =>
    (if i ∈ toChange then editValue needInc v else v)
      :: applyEdits needInc toChange (i + 1) rest

/-- The decision part of `adjust_awakenings` on the awakening values of one
phase group: `none` models the source raising (`int(nan)` on an empty
group); `some none` is the no-edit path; `some (some (needInc, toChange))`
are the edits it commits.  `int(gap * n)` truncates toward zero, which on
the non-negative `gap * n` is the floor. -/
def awakeningsEditPlan (sel : List ℕ → ℕ → List ℕ) (values : List ℤ)
    (targetMean : ℚ) : Option (Option (Bool × List ℕ)) :=
  if values.length = 0 then none
  else
    let currentMean := intMeanQ values
    if ratAbs (currentMean - targetMean) < 1/100 then some none
    else
      let needInc := decide (targetMean > currentMean)
      let gap := ratAbs (targetMean - currentMean)
      let numChanges := (⌊gap * values.length⌋).toNat
      if numChanges = 0 then some none
      else
        let candidates := candidateIdx needInc 0 values
        if candidates.length = 0 then some none
        else
          let numToChange := min numChanges candidates.length
          some (some (needInc, sel candidates numToChange))

/-- `adjust_awakenings` on the value list of one phase group. -/
def adjustAwakeningsVals (sel : List ℕ → ℕ → List ℕ) (values : List ℤ)
    (targetMean : ℚ) : Option (List ℤ) :=
  match awakeningsEditPlan sel values targetMean with
  | none => none
  | some none => some values
  | some (some (needInc, toChange)) => some (applyEdits needInc toChange 0 values)

/-- Map `f` over the members of the sub-group selected by `p`, passing each
member its index within the group; models in-place edits of a filtered
list of shared references. -/
def mapGroup (p : Response → Bool) (f : ℕ → Response → Response) :
    ℕ → List Response → List Response
  | _, [] => []
  | k, r :: rest =>
    if p r then f k r :: mapGroup p f (k + 1) rest
    else r :: mapGroup p f k rest

def isFollicularResp (r : Response) : Bool :=
  extractPhase r = "follicular"

def isLutealResp (r : Response) : Bool :=
  extractPhase r = "luteal"

/-- `adjust_awakenings` acting on the responses of the group selected by
`p` inside the full cohort list. -/
def adjustAwakeningsGroup (sel : List ℕ → ℕ → List ℕ) (p : Response → Bool)
    (targetMean : ℚ) (rs : List Response) : Option (List Response) :=
  match awakeningsEditPlan sel ((rs.filter p).map fun r => r.awakenings) targetMean with
  | none => none
  | some none => some rs
  | some (some (needInc, toChange)) =>
      some (mapGroup p
        (fun k r =>
          if k ∈ toChange then { r with awakenings := editValue needInc r.awakenings }
          else r)
        0 rs)

/-- `get_symptoms` normalization of one raw answer string. -/
def normalizeSymptom (s : String) : Option String :=
  if subOccurs "sweat" (lowerAscii s) then some "night-sweats"
  else if subOccurs "palpitation" (lowerAscii s) then some "palpitations"
  else if subOccurs "dizziness" (lowerAscii s) then some "dizziness"
  else none

/-- `get_symptoms`: normalized symptom names of a response. -/
def getSymptoms (r : Response) : List String :=
  r.symptoms.filterMap normalizeSymptom

/-- `set_symptoms`' display strings for the three normalized names (the
source indexes a dict that only has these keys). -/
def symptomDisplay (s : String) : String :=
  if s = "night-sweats" then "Night sweats"
  else if s = "palpitations" then "Heart palpitations"
  else if s = "dizziness" then "Dizziness on standing"
  else ""

/-- `set_symptoms`: replace the linkId-9 answers with the display strings
of the given normalized names. -/
def setSymptoms (r : Response) (symptoms : List String) : Response :=
  { r with symptoms := symptoms.map symptomDisplay }

/-- Group-relative indices of the group members satisfying `q`. -/
def groupIdxWhere (q : Response → Bool) : ℕ → List Response → List ℕ
  | _, [] => []
  | k, r :: rest =>
    if q r then k :: groupIdxWhere q (k + 1) rest
    else groupIdxWhere q (k + 1) rest

/-- One iteration of `adjust_symptom_rates` (a single symptom / target
rate) on the group selected by `p`.  `none` models the source's
`ZeroDivisionError` on an empty group; `int(target_rate * n)` truncates,
which is the floor of the non-negative product. -/
def adjustSymptomRateGroup (sel : List ℕ → ℕ → List ℕ) (p : Response → Bool)
    (symptom : String) (targetRate : ℚ) (rs : List Response) :
    Option (List Response) :=
  let group := rs.filter p
  if group.length = 0 then none
  else
    let currentCount := group.countP fun r => decide (symptom ∈ getSymptoms r)
    let currentRate := (currentCount : ℚ) / group.length
    if ratAbs (currentRate - targetRate) < 1/100 then some rs
    else
      let targetCount : ℤ := ⌊targetRate * group.length⌋
      let gap : ℤ := targetCount - currentCount
      if gap = 0 then some rs
      else if 0 < gap then
        let candidates := groupIdxWhere (fun r => !decide (symptom ∈ getSymptoms r)) 0 group
        let toModify := sel candidates (min gap.toNat candidates.length)
        some (mapGroup p
          (fun k r =>
            if k ∈ toModify then setSymptoms r (getSymptoms r ++ [symptom]) else r)
          0 rs)
      else
        let candidates := groupIdxWhere (fun r => decide (symptom ∈ getSymptoms r)) 0 group
        let toModify := sel candidates (min (-gap).toNat candidates.length)
        some (mapGroup p
          (fun k r =>
            if k ∈ toModify then setSymptoms r ((getSymptoms r).erase symptom) else r)
          0 rs)

/-- The retrofit target for intervention luteal glucose:
`baseline + 10% of the standard luteal increase`. -/
def interventionTargetGlucose (params : CohortParameters) : ℚ :=
  params.glucoseFollicularMean + params.lutealGlucoseIncrease * (1/10)

/-- `adjust_intervention_effect` on the glucose values of the intervention
luteal group: empty group and within-0.5 cases are no-ops; otherwise every
value is shifted by `target - mean`, clamped to `[70, 180]` and rounded to
one decimal. -/
def adjustInterventionEffectVals (params : CohortParameters) (vals : List ℚ) :
    List ℚ :=
  if vals.length = 0 then vals
  else
    let targetGlucose := interventionTargetGlucose params
    let currentMean := listMean vals
    if ratAbs (currentMean - targetGlucose) < 1/2 then vals
    else
      let shift := targetGlucose - currentMean
      vals.map fun g => round1 (qmax 70 (qmin 180 (g + shift)))

/-- The intervention luteal group: luteal by the glucose proxy and
intervention by the free-text keyword. -/
def interventionLutealPred (r : Response) : Bool :=
  isLutealResp r && isIntervention r

/-- `adjust_intervention_effect` acting inside the full cohort list. -/
def adjustInterventionEffectStep (params : CohortParameters)
    (rs : List Response) : List Response :=
  let vals := (rs.filter interventionLutealPred).map fun r => r.glucose
  if vals.length = 0 then rs
  else
    let targetGlucose := interventionTargetGlucose params
    let currentMean := listMean vals
    if ratAbs (currentMean - targetGlucose) < 1/2 then rs
    else
      let shift := targetGlucose - currentMean
      mapGroup interventionLutealPred
        (fun _ r => { r with glucose := round1 (qmax 70 (qmin 180 (r.glucose + shift))) })
        0 rs

/-- `retrofit_cohort`: the fixed sequence of adjustments the retrofit pass
performs on the loaded cohort (awakenings per phase, the three symptom
rates per phase, then the intervention effect), before saving everything
back.  File contents change exactly when the returned list differs from
the input. -/
def retrofitCohort (sel : List ℕ → ℕ → List ℕ) (params : CohortParameters)
    (rs : List Response) : Option (List Response) := do
  let rs ← adjustAwakeningsGroup sel isFollicularResp
    params.awakeningsFollicularMean rs
  let rs ← adjustAwakeningsGroup sel isLutealResp
    (params.awakeningsFollicularMean + params.lutealAwakeningsIncrease) rs
  let rs ← adjustSymptomRateGroup sel isFollicularResp "night-sweats"
    params.nightSweatsProbFollicular rs
  let rs ← adjustSymptomRateGroup sel isFollicularResp "palpitations"
    params.palpitationsProbFollicular rs
  let rs ← adjustSymptomRateGroup sel isFollicularResp "dizziness"
    params.dizzinessProbFollicular rs
  let rs ← adjustSymptomRateGroup sel isLutealResp "night-sweats"
    params.nightSweatsProbLuteal rs
  let rs ← adjustSymptomRateGroup sel isLutealResp "palpitations"
    params.palpitationsProbLuteal rs
  let rs ← adjustSymptomRateGroup sel isLutealResp "dizziness"
    params.dizzinessProbLuteal rs
  pure (adjustInterventionEffectStep params rs)

/-- A concrete deterministic selection oracle (take the first `k`
candidates); on candidate lists it returns a `k`-element duplicate-free
subset, as `rng.choice(..., replace=False)` does. -/
def selTake (candidates : List ℕ) (k : ℕ) : List ℕ :=
  candidates.take k

/-- The statistics of a cohort sit inside every adjustment's no-op window:
each awakenings pass is within 0.01 of its target, would truncate to zero
edits, or has no feasible candidate; each symptom pass is within 0.01 or
already at its truncated target count; the intervention pass has an empty
group or is within 0.5. -/
def retrofitStable (params : CohortParameters) (rs : List Response) : Prop :=
  (((rs.filter isFollicularResp).map fun r => r.awakenings).length ≠ 0 ∧
    (ratAbs (intMeanQ ((rs.filter isFollicularResp).map fun r => r.awakenings) -
        params.awakeningsFollicularMean) < 1/100 ∨
      (⌊ratAbs (params.awakeningsFollicularMean -
          intMeanQ ((rs.filter isFollicularResp).map fun r => r.awakenings)) *
        ((rs.filter isFollicularResp).map fun r => r.awakenings).length⌋).toNat = 0 ∨
      candidateIdx
        (decide (params.awakeningsFollicularMean >
          intMeanQ ((rs.filter isFollicularResp).map fun r => r.awakenings)))
        0 ((rs.filter isFollicularResp).map fun r => r.awakenings) = [])) ∧
  (((rs.filter isLutealResp).map fun r => r.awakenings).length ≠ 0 ∧
    (ratAbs (intMeanQ ((rs.filter isLutealResp).map fun r => r.awakenings) -
        (params.awakeningsFollicularMean + params.lutealAwakeningsIncrease)) < 1/100 ∨
      (⌊ratAbs ((params.awakeningsFollicularMean + params.lutealAwakeningsIncrease) -
          intMeanQ ((rs.filter isLutealResp).map fun r => r.awakenings)) *
        ((rs.filter isLutealResp).map fun r => r.awakenings).length⌋).toNat = 0 ∨
      candidateIdx
        (decide ((params.awakeningsFollicularMean + params.lutealAwakeningsIncrease) >
          intMeanQ ((rs.filter isLutealResp).map fun r => r.awakenings)))
        0 ((rs.filter isLutealResp).map fun r => r.awakenings) = [])) ∧
  ((rs.filter isFollicularResp).length ≠ 0 ∧
    ∀ st ∈ [("night-sweats", params.nightSweatsProbFollicular),
            ("palpitations", params.palpitationsProbFollicular),
            ("dizziness", params.dizzinessProbFollicular)],
      ratAbs (((rs.filter isFollicularResp).countP
          (fun r => decide (st.1 ∈ getSymptoms r)) : ℚ) /
          ((rs.filter isFollicularResp).length : ℚ) - st.2) < 1/100 ∨
        ⌊st.2 * ((rs.filter isFollicularResp).length : ℚ)⌋ =
          ((rs.filter isFollicularResp).countP
            (fun r => decide (st.1 ∈ getSymptoms r)) : ℤ)) ∧
  ((rs.filter isLutealResp).length ≠ 0 ∧
    ∀ st ∈ [("night-sweats", params.nightSweatsProbLuteal),
            ("palpitations", params.palpitationsProbLuteal),
            ("dizziness", params.dizzinessProbLuteal)],
      ratAbs (((rs.filter isLutealResp).countP
          (fun r => decide (st.1 ∈ getSymptoms r)) : ℚ) /
          ((rs.filter isLutealResp).length : ℚ) - st.2) < 1/100 ∨
        ⌊st.2 * ((rs.filter isLutealResp).length : ℚ)⌋ =
          ((rs.filter isLutealResp).countP
            (fun r => decide (st.1 ∈ getSymptoms r)) : ℤ)) ∧
  (((rs.filter interventionLutealPred).map fun r => r.glucose) = [] ∨
    ratAbs (listMean ((rs.filter interventionLutealPred).map fun r => r.glucose) -
      interventionTargetGlucose params) < 1/2)

/-- A follicular document (glucose 100) with one awakening and no
symptoms. -/
def stableFolResp : Response :=
  { age := 30
    deliveryMethod := "Insulin Pump"
    lmp := 95
    cycleRegularity := "Very regular (predictable)"
    basalInsulin := 14
    glucose := 100
    awakenings := 1
    symptoms := []
    subjective := "My glucose levels tend to be higher during certain times of the month."
    authored := 100 }

/-- A luteal document (glucose 130) with one awakening. -/
def stableLutResp : Response :=
  { stableFolResp with glucose := 130 }

/-- A two-document cohort on which every retrofit adjustment is a no-op. -/
def stableCohort : List Response := [stableFolResp, stableLutResp]

/-- Follicular document of the counterexample cohort. -/
def cexFolResp : Response :=
  { stableFolResp with lmp := 95 }

/-- Luteal document with 9 awakenings. -/
def cexLutResp9 : Response :=
  { stableLutResp with awakenings := 9 }

/-- The same document after one capped retrofit pass. -/
def cexLutResp8 : Response :=
  { stableLutResp with awakenings := 8 }

/-- The same document after a second retrofit pass. -/
def cexLutResp7 : Response :=
  { stableLutResp with awakenings := 7 }

def cexCohort : List Response := [cexFolResp, cexLutResp9, cexLutResp9]

def cexCohortOnce : List Response := [cexFolResp, cexLutResp8, cexLutResp8]

def cexCohortTwice : List Response := [cexFolResp, cexLutResp7, cexLutResp7]

/-! ## Edit counting for `adjust_awakenings` (C6, C9) -/
/-- Number of positions at which two integer lists differ (the records a
retrofit pass rewrites with a different value). -/
def countDiffZ : List ℤ → List ℤ → ℕ
  | x :: xs, y :: ys => (if x = y then 0 else 1) + countDiffZ xs ys
  | _, _ => 0

/-- The edit direction `need_increase` of `adjust_awakenings`. -/
def awakNeedInc (values : List ℤ) (t : ℚ) : Bool :=
  decide (t > intMeanQ values)

/-- The truncated edit count `int(gap * n)` of `adjust_awakenings`. -/
def awakGapCount (values : List ℤ) (t : ℚ) : ℕ :=
  (⌊ratAbs (t - intMeanQ values) * values.length⌋).toNat

/-- The feasible candidate positions of `adjust_awakenings`. -/
def awakCandidates (values : List ℤ) (t : ℚ) : List ℕ :=
  candidateIdx (awakNeedInc values t) 0 values

/-- `num_to_change = min(num_changes, len(candidates))`. -/
def awakNumToChange (values : List ℤ) (t : ℚ) : ℕ :=
  min (awakGapCount values t) (awakCandidates values t).length

/-! ## `src/generators/patient_generator.py` — samplers

Each `rng.normal(μ, σ)` draw is modelled by an explicit sample parameter;
the μ-selection logic (the only phase-dependent part) is embedded
separately so the phase branching of the source is visible. -/
/-- The mean `generate_nighttime_glucose` hands to `rng.normal`: the
`else` branch is the luteal computation, whatever the label. -/
def nighttimeGlucoseMean (params : CohortParameters) (phase : String)
    (inIntervention : Bool) (shift : ℚ) : ℚ :=
  if phase = "follicular" then params.glucoseFollicularMean + shift
  else
    if inIntervention then
      params.glucoseFollicularMean + params.lutealGlucoseIncrease * (1/10) + shift
    else params.glucoseFollicularMean + params.lutealGlucoseIncrease + shift

/-- `generate_nighttime_glucose`'s post-processing of the drawn sample:
`round(max(50.0, glucose), 1)`. -/
def generateNighttimeGlucose (sample : ℚ) : ℚ :=
  round1 (qmax 50 sample)

/-- The mean `generate_sleep_awakenings` hands to `rng.normal`: the `else`
branch is the luteal computation, whatever the label. -/
def sleepAwakeningsMean (params : CohortParameters) (phase : String)
    (shift : ℚ) : ℚ :=
  if phase = "follicular" then params.awakeningsFollicularMean + shift
  else params.awakeningsFollicularMean + params.lutealAwakeningsIncrease + shift

/-- `generate_sleep_awakenings`'s post-processing of the drawn sample:
`int(round(max(0, awakenings)))`. -/
def generateSleepAwakenings (sample : ℚ) : ℤ :=
  rndHalfEvenZ (qmax 0 sample)

/-- The phase-dependent dose of `generate_basal_insulin` before
observation noise, clipping and rounding: only the label `"luteal"`
selects the luteal computation; anything else keeps the baseline. -/
def basalDoseBeforeNoise (params : CohortParameters) (phase : String)
    (inIntervention : Bool) (shift baseline reduction : ℚ) : ℚ :=
  if phase = "luteal" then
    if inIntervention then baseline * (1 - reduction)
    else baseline * (1 + params.lutealInsulinIncrease) + shift
  else baseline

/-! ## `src/generators/cohort_tracker.py` — running statistics -/
/-- The generator-side observation record (the dict built by
`generate_observation`). -/
structure Observation where
  patientId : String
  observationDate : ℤ
  phase : String
  inIntervention : Bool
  age : ℤ
  yearsSinceDiagnosis : ℤ
  insulinDeliveryMethod : String
  cycleRegularity : String
  lmp : ℤ
  basalInsulin : ℚ
  nighttimeGlucose : ℚ
  sleepAwakenings : ℤ
  symptoms : List String
  deriving DecidableEq

/-- `CohortStats` of the tracker (running aggregates). -/
structure TrackerStats where
  totalObservations : ℕ := 0
  follicularCount : ℕ := 0
  lutealCount : ℕ := 0
  interventionCount : ℕ := 0
  ages : List ℤ := []
  pumpCount : ℕ := 0
  injectionCount : ℕ := 0
  veryRegularCount : ℕ := 0
  somewhatRegularCount : ℕ := 0
  irregularCount : ℕ := 0
  follicularGlucose : List ℚ := []
  lutealGlucose : List ℚ := []
  lutealGlucoseNonIntervention : List ℚ := []
  lutealGlucoseIntervention : List ℚ := []
  follicularBasal : List ℚ := []
  lutealBasal : List ℚ := []
  follicularAwakenings : List ℚ := []
  lutealAwakenings : List ℚ := []
  follicularNightSweats : ℕ := 0
  follicularPalpitations : ℕ := 0
  follicularDizziness : ℕ := 0
  lutealNightSweats : ℕ := 0
  lutealPalpitations : ℕ := 0
  lutealDizziness : ℕ := 0
  deriving DecidableEq

/-- A freshly constructed tracker's stats. -/
def emptyTrackerStats : TrackerStats := {}

/-- `CohortTracker.record_observation`: every phase test is
`phase == 'follicular'` with an unconditional `else` — any other label is
counted as luteal. -/
def recordObservation (s : TrackerStats) (o : Observation) : TrackerStats :=
  { totalObservations := s.totalObservations + 1
    follicularCount :=
      if o.phase = "follicular" then s.follicularCount + 1 else s.follicularCount
    lutealCount :=
      if o.phase = "follicular" then s.lutealCount else s.lutealCount + 1
    interventionCount :=
      if o.inIntervention then s.interventionCount + 1 else s.interventionCount
    ages := s.ages ++ [o.age]
    pumpCount :=
      if o.insulinDeliveryMethod = "Insulin Pump" then s.pumpCount + 1
      else s.pumpCount
    injectionCount :=
      if o.insulinDeliveryMethod = "Insulin Pump" then s.injectionCount
      else s.injectionCount + 1
    veryRegularCount :=
      if subOccurs "Very regular" o.cycleRegularity then s.veryRegularCount + 1
      else s.veryRegularCount
    somewhatRegularCount :=
      if subOccurs "Very regular" o.cycleRegularity then s.somewhatRegularCount
      else if subOccurs "Somewhat regular" o.cycleRegularity then
        s.somewhatRegularCount + 1
      else s.somewhatRegularCount
    irregularCount :=
      if subOccurs "Very regular" o.cycleRegularity then s.irregularCount
      else if subOccurs "Somewhat regular" o.cycleRegularity then s.irregularCount
      else s.irregularCount + 1
    follicularGlucose :=
      if o.phase = "follicular" then s.follicularGlucose ++ [o.nighttimeGlucose]
      else s.follicularGlucose
    lutealGlucose :=
      if o.phase = "follicular" then s.lutealGlucose
      else s.lutealGlucose ++ [o.nighttimeGlucose]
    lutealGlucoseNonIntervention :=
      if o.phase = "follicular" then s.lutealGlucoseNonIntervention
      else if o.inIntervention then s.lutealGlucoseNonIntervention
      else s.lutealGlucoseNonIntervention ++ [o.nighttimeGlucose]
    lutealGlucoseIntervention :=
      if o.phase = "follicular" then s.lutealGlucoseIntervention
      else if o.inIntervention then
        s.lutealGlucoseIntervention ++ [o.nighttimeGlucose]
      else s.lutealGlucoseIntervention
    follicularBasal :=
      if o.phase = "follicular" then s.follicularBasal ++ [o.basalInsulin]
      else s.follicularBasal
    lutealBasal :=
      if o.phase = "follicular" then s.lutealBasal
      else s.lutealBasal ++ [o.basalInsulin]
    follicularAwakenings :=
      if o.phase = "follicular" then
        s.follicularAwakenings ++ [(o.sleepAwakenings : ℚ)]
      else s.follicularAwakenings
    lutealAwakenings :=
      if o.phase = "follicular" then s.lutealAwakenings
      else s.lutealAwakenings ++ [(o.sleepAwakenings : ℚ)]
    follicularNightSweats :=
      if o.phase = "follicular" ∧ "Night sweats" ∈ o.symptoms then
        s.follicularNightSweats + 1
      else s.follicularNightSweats
    follicularPalpitations :=
      if o.phase = "follicular" ∧ "Palpitations" ∈ o.symptoms then
        s.follicularPalpitations + 1
      else s.follicularPalpitations
    follicularDizziness :=
      if o.phase = "follicular" ∧ "Dizziness" ∈ o.symptoms then
        s.follicularDizziness + 1
      else s.follicularDizziness
    lutealNightSweats :=
      if o.phase ≠ "follicular" ∧ "Night sweats" ∈ o.symptoms then
        s.lutealNightSweats + 1
      else s.lutealNightSweats
    lutealPalpitations :=
      if o.phase ≠ "follicular" ∧ "Palpitations" ∈ o.symptoms then
        s.lutealPalpitations + 1
      else s.lutealPalpitations
    lutealDizziness :=
      if o.phase ≠ "follicular" ∧ "Dizziness" ∈ o.symptoms then
        s.lutealDizziness + 1
      else s.lutealDizziness }

/-- An observation with the malformed phase label "banana". -/
def bananaObservation : Observation :=
  { patientId := "patient-0001"
    observationDate := 200
    phase := "banana"
    inIntervention := false
    age := 30
    yearsSinceDiagnosis := 10
    insulinDeliveryMethod := "Insulin Pump"
    cycleRegularity := "Somewhat regular"
    lmp := 195
    basalInsulin := 14
    nighttimeGlucose := 120
    sleepAwakenings := 1
    symptoms := [] }

/-! ## `CohortTracker.get_correction_factors`

The returned Python dict is modelled as the ordered list of key/value
pairs the function inserts; each `if/elif` block becomes one part of a
concatenation. -/
/-- One `if rate < target - ε: boost elif rate > target + ε': reduce`
block of the symptom-rate corrections. -/
def symptomPair (rate target lowEps highEps : ℚ) (boostKey : String)
    (boostVal : ℚ) (reduceKey : String) (reduceVal : ℚ) :
    List (String × ℚ) :=
  if rate < target - lowEps then [(boostKey, boostVal)]
  else if rate > target + highEps then [(reduceKey, reduceVal)]
  else []

/-- Phase balance correction: `prefer_follicular`/`prefer_luteal`, weight
3.0 when more than 0.08 off, else 2.5. -/
def phaseBalancePart (stats : TrackerStats) : List (String × ℚ) :=
  let ratio : ℚ := (stats.follicularCount : ℚ) / (stats.totalObservations : ℚ)
  let diff := ratAbs (ratio - 1/2)
  if ratio < 1/2 - 1/50 then
    [("prefer_follicular", if diff > 2/25 then 3 else 5/2)]
  else if ratio > 1/2 + 1/50 then
    [("prefer_luteal", if diff > 2/25 then 3 else 5/2)]
  else []

/-- Pump ratio correction. -/
def pumpRatioPart (params : CohortParameters) (stats : TrackerStats) :
    List (String × ℚ) :=
  if 0 < stats.pumpCount + stats.injectionCount then
    let ratio : ℚ :=
      (stats.pumpCount : ℚ) / ((stats.pumpCount + stats.injectionCount : ℕ) : ℚ)
    if ratio < params.pumpRatio - 1/20 then [("prefer_pump", 3/2)]
    else if ratio > params.pumpRatio + 1/20 then [("prefer_injection", 3/2)]
    else []
  else []

/-- Age mean correction. -/
def agePart (params : CohortParameters) (stats : TrackerStats) :
    List (String × ℚ) :=
  if 10 < stats.ages.length then
    let ageDiff := params.ageMean - intMeanQ stats.ages
    if 3/2 < ratAbs ageDiff then [("age_shift", ageDiff * (7/10))] else []
  else []

/-- Follicular glucose correction. -/
def folGlucosePart (params : CohortParameters) (stats : TrackerStats) :
    List (String × ℚ) :=
  if 5 < stats.follicularGlucose.length then
    let diff := params.glucoseFollicularMean - listMean stats.follicularGlucose
    if 3 < ratAbs diff then [("follicular_glucose_shift", diff * (7/10))] else []
  else []

/-- Luteal (non-intervention) glucose correction. -/
def lutGlucosePart (params : CohortParameters) (stats : TrackerStats) :
    List (String × ℚ) :=
  if 5 < stats.lutealGlucoseNonIntervention.length then
    let diff := params.glucoseFollicularMean + params.lutealGlucoseIncrease -
      listMean stats.lutealGlucoseNonIntervention
    if 3 < ratAbs diff then [("luteal_glucose_shift", diff * (7/10))] else []
  else []

/-- Follicular basal insulin correction (damping 1.0). -/
def folBasalPart (params : CohortParameters) (stats : TrackerStats) :
    List (String × ℚ) :=
  if 5 < stats.follicularBasal.length then
    let diff := params.basalInsulinMean - listMean stats.follicularBasal
    if 1 < ratAbs diff then [("basal_insulin_shift", diff * 1)] else []
  else []

/-- Luteal basal insulin correction (damping 0.8). -/
def lutBasalPart (params : CohortParameters) (stats : TrackerStats) :
    List (String × ℚ) :=
  if 5 < stats.lutealBasal.length then
    let diff := params.basalInsulinMean * (1 + params.lutealInsulinIncrease) -
      listMean stats.lutealBasal
    if 1 < ratAbs diff then [("luteal_basal_shift", diff * (4/5))] else []
  else []

/-- Follicular awakenings correction (damping 2.0). -/
def folAwakPart (params : CohortParameters) (stats : TrackerStats) :
    List (String × ℚ) :=
  if 5 < stats.follicularAwakenings.length then
    let diff := params.awakeningsFollicularMean - listMean stats.follicularAwakenings
    if 1/10 < ratAbs diff then [("follicular_awakenings_shift", diff * 2)] else []
  else []

/-- Luteal awakenings correction (damping 2.0). -/
def lutAwakPart (params : CohortParameters) (stats : TrackerStats) :
    List (String × ℚ) :=
  if 5 < stats.lutealAwakenings.length then
    let diff := params.awakeningsFollicularMean + params.lutealAwakeningsIncrease -
      listMean stats.lutealAwakenings
    if 1/10 < ratAbs diff then [("luteal_awakenings_shift", diff * 2)] else []
  else []

/-- Follicular symptom-rate corrections. -/
def folSymptomsPart (params : CohortParameters) (stats : TrackerStats) :
    List (String × ℚ) :=
  if 5 < stats.follicularCount then
    symptomPair ((stats.follicularNightSweats : ℚ) / (stats.follicularCount : ℚ))
      params.nightSweatsProbFollicular (1/50) (1/50)
      "follicular_sweats_boost" (7/2) "follicular_sweats_reduce" (1/5) ++
    symptomPair ((stats.follicularPalpitations : ℚ) / (stats.follicularCount : ℚ))
      params.palpitationsProbFollicular (1/100) (1/50)
      "follicular_palpitations_boost" 4 "follicular_palpitations_reduce" (1/5) ++
    symptomPair ((stats.follicularDizziness : ℚ) / (stats.follicularCount : ℚ))
      params.dizzinessProbFollicular (1/100) (1/50)
      "follicular_dizziness_boost" 4 "follicular_dizziness_reduce" (1/5)
  else []

/-- Luteal symptom-rate corrections. -/
def lutSymptomsPart (params : CohortParameters) (stats : TrackerStats) :
    List (String × ℚ) :=
  if 5 < stats.lutealCount then
    symptomPair ((stats.lutealNightSweats : ℚ) / (stats.lutealCount : ℚ))
      params.nightSweatsProbLuteal (3/100) (3/100)
      "luteal_sweats_boost" 3 "luteal_sweats_reduce" (3/10) ++
    symptomPair ((stats.lutealPalpitations : ℚ) / (stats.lutealCount : ℚ))
      params.palpitationsProbLuteal (1/50) (3/100)
      "luteal_palpitations_boost" (7/2) "luteal_palpitations_reduce" (3/10) ++
    symptomPair ((stats.lutealDizziness : ℚ) / (stats.lutealCount : ℚ))
      params.dizzinessProbLuteal (1/50) (3/100)
      "luteal_dizziness_boost" (7/2) "luteal_dizziness_reduce" (3/10)
  else []

/-- `CohortTracker.get_correction_factors`. -/
def getCorrectionFactors (params : CohortParameters) (targetTotal : ℕ)
    (stats : TrackerStats) : List (String × ℚ) :=
  if stats.totalObservations = 0 then []
  else if (targetTotal : ℤ) - (stats.totalObservations : ℤ) ≤ 0 then []
  else
    phaseBalancePart stats ++ pumpRatioPart params stats ++
    agePart params stats ++ folGlucosePart params stats ++
    lutGlucosePart params stats ++ folBasalPart params stats ++
    lutBasalPart params stats ++ folAwakPart params stats ++
    lutAwakPart params stats ++ folSymptomsPart params stats ++
    lutSymptomsPart params stats

/-! ## C10: opposing correction keys are never emitted together -/
/-- The key `k` appears in the correction map `l`. -/
def hasKey (l : List (String × ℚ)) (k : String) : Prop :=
  ∃ e ∈ l, e.1 = k

/-! ## `src/generators/response_builder.py` and C1 (determinism)

`build_response` stamps the document with
`authored=datetime.now().astimezone().isoformat()`, and
`generate_observation_schedule` anchors every observation date at
`datetime.now()`; both wall-clock reads are modelled as explicit inputs
(the `authored` timestamp as an opaque string, the schedule base date as a
day number).  Everything else the pipeline does is a pure function of the
seeded random draws and the arguments. -/
/-- The serialized QuestionnaireResponse `build_response` constructs: the
resource header plus the answers at linkIds 1–10. -/
structure SerializedResponse where
  id : String
  questionnaire : String
  status : String
  /-- `datetime.now().astimezone().isoformat()` at build time. -/
  authored : String
  ageItem : ℤ
  yearsItem : ℤ
  deliveryItem : String
  lmpItem : ℤ
  regularityItem : String
  basalItem : ℚ
  glucoseItem : ℚ
  awakeningsItem : ℤ
  symptomsItem : List String
  subjectiveItem : String
  deriving DecidableEq

/-- `ResponseBuilder.build_response` on a generated profile, with the
wall-clock reading passed explicitly. -/
def buildResponse (profile : Observation) (patientId : String)
    (now : String) : SerializedResponse :=
  { id := "response-" ++ patientId
    questionnaire := "Questionnaire/menstrual-cycle-t1d-questionnaire"
    status := "completed"
    authored := now
    ageItem := profile.age
    yearsItem := profile.yearsSinceDiagnosis
    deliveryItem := profile.insulinDeliveryMethod
    lmpItem := profile.lmp
    regularityItem := profile.cycleRegularity
    basalItem := profile.basalInsulin
    glucoseItem := profile.nighttimeGlucose
    awakeningsItem := profile.sleepAwakenings
    symptomsItem := profile.symptoms
    subjectiveItem :=
      "My glucose levels tend to be higher during certain times of the month." }

/-- One entry of `generate_observation_schedule`: the observation date is
`datetime.now() + offset`, so it depends on the wall clock, not only on
the seeded draws. -/
def scheduleObservationDate (baseDate : ℤ) (daysOffset : ℤ) : ℤ :=
  baseDate + daysOffset

/-- A well-formed generated profile used for the C1 counterexample. -/
def c1Profile : Observation :=
  { bananaObservation with phase := "follicular" }

/-! ## Theorems -/

theorem rndHalfEvenZ_nonneg (q : ℚ) (h : 0 ≤ q) : 0 ≤ rndHalfEvenZ q := by
  unfold rndHalfEvenZ
  have hfl : (0 : ℤ) ≤ ⌊q⌋ := Int.floor_nonneg.mpr h
  split
  · exact hfl
  · split
    · omega
    · split <;> omega

theorem abs_rndHalfEvenZ_sub_le (q : ℚ) : |(rndHalfEvenZ q : ℚ) - q| ≤ 1/2 := by
  have h0 : (⌊q⌋ : ℚ) ≤ q := Int.floor_le q
  have h1 : q < (⌊q⌋ : ℚ) + 1 := Int.lt_floor_add_one q
  unfold rndHalfEvenZ
  split
  · rename_i h
    rw [abs_le]
    constructor <;> linarith
  · rename_i h
    split
    · rename_i h'
      push_cast
      rw [abs_le]
      constructor <;> linarith
    · rename_i h'
      split <;> (push_cast; rw [abs_le]; constructor <;> linarith)

theorem abs_round1_sub_le (q : ℚ) : |round1 q - q| ≤ 1/20 := by
  have h := abs_rndHalfEvenZ_sub_le (q * 10)
  unfold round1
  have heq : (rndHalfEvenZ (q * 10) : ℚ) / 10 - q
      = ((rndHalfEvenZ (q * 10) : ℚ) - q * 10) / 10 := by ring
  rw [heq, abs_div, abs_of_pos (show (0:ℚ) < 10 by norm_num)]
  linarith

/-- **C4** (confirmed).  Phase–LMP round trip: for every observation date,
every target phase in {follicular, luteal} and every days-ago offset the
sampler can draw for that phase (0–13 follicular, 14–27 luteal), the phase
classifier applied to the sampled LMP and the observation date returns the
target phase. -/
theorem lmp_phase_round_trip (observationDate daysAgo : ℤ) (targetPhase : String)
    (hphase : targetPhase = "follicular" ∨ targetPhase = "luteal")
    (hfol : targetPhase = "follicular" → 0 ≤ daysAgo ∧ daysAgo ≤ 13)
    (hlut : targetPhase = "luteal" → 14 ≤ daysAgo ∧ daysAgo ≤ 27) :
    calculatePhaseFromLmp (generateLmpForPhase observationDate targetPhase daysAgo)
      observationDate = targetPhase := by
  have hmod : ∀ d : ℤ, 0 ≤ d → d ≤ 27 → d % 28 = d := by
    intro d h1 h2
    exact Int.emod_eq_of_lt h1 (by omega)
  rcases hphase with h | h
  · obtain ⟨h1, h2⟩ := hfol h
    subst h
    unfold calculatePhaseFromLmp generateLmpForPhase calculateCycleDay getCyclePhase
    have : observationDate - (observationDate - daysAgo) = daysAgo := by ring
    rw [this, hmod daysAgo h1 (by omega)]
    simp only [if_pos (by omega : 1 ≤ daysAgo + 1 ∧ daysAgo + 1 ≤ 14)]
  · obtain ⟨h1, h2⟩ := hlut h
    subst h
    unfold calculatePhaseFromLmp generateLmpForPhase calculateCycleDay getCyclePhase
    have : observationDate - (observationDate - daysAgo) = daysAgo := by ring
    rw [this, hmod daysAgo (by omega) h2]
    simp only [if_neg (by omega : ¬(1 ≤ daysAgo + 1 ∧ daysAgo + 1 ≤ 14))]

/-- Witness for C4 at a concrete input: observation day 1000, luteal,
offset 20. -/
theorem lmp_phase_round_trip_witness :
    calculatePhaseFromLmp (generateLmpForPhase 1000 "luteal" 20) 1000 = "luteal" :=
  lmp_phase_round_trip 1000 20 "luteal" (Or.inr rfl)
    (by intro h; simp at h) (by intro _; omega)

theorem ratAbs_eq_abs (q : ℚ) : ratAbs q = |q| := by
  unfold ratAbs
  split
  · rename_i h
    rw [abs_of_neg h]
  · rename_i h
    rw [abs_of_nonneg (le_of_not_lt h)]

/-- **C3** (counterexample).  RetrofitEngine and CohortValidator do not
derive phase the same way: the retrofit engine infers it from a glucose
threshold but the validator infers it from LMP/authored dates, and on
`phaseDisagreementResponse` the two derivations disagree. -/
theorem extractPhase_ne_validatorPhase :
    extractPhase phaseDisagreementResponse ≠
      validatorCalculatePhase phaseDisagreementResponse := by
  decide

/-- **C3** (amended, proved).  The two derivations are independent and
different: phase is inferred from a glucose threshold only by
RetrofitEngine, while CohortValidator infers it from the LMP and authored
dates, and the two can disagree on the same document; for intervention
membership the retrofit keyword `"cycle-aware"` is one of the validator's
five keywords, so every document the retrofit engine counts as
intervention the validator also counts as intervention (the converse
fails). -/
theorem isIntervention_retrofit_implies_validator (r : Response)
    (h : isIntervention r = true) : isInterventionValidator r = true := by
  have hne : r.subjective ≠ "" := by
    intro he
    rw [isIntervention, he] at h
    simp [lowerAscii, subOccurs, occursChars, leadsChars] at h
  have hk : lowerAscii "cycle-aware" = "cycle-aware" := by decide
  rw [isInterventionValidator, if_neg hne]
  rw [isIntervention] at h
  simp only [interventionKeywords, List.any_cons, hk, h, Bool.true_or]

/-- Witness for the amended C3 on a concrete intervention document. -/
theorem isIntervention_retrofit_implies_validator_witness :
    isInterventionValidator
      { phaseDisagreementResponse with
          subjective := "I use cycle-aware basal adjustment." } = true :=
  isIntervention_retrofit_implies_validator _ (by decide)

/-! ## No-op characterizations of the retrofit adjustments -/
theorem floor_eq_zero_of_lt_one (q : ℚ) (h1 : 0 ≤ q) (h2 : q < 1) : ⌊q⌋ = 0 :=
  Int.floor_eq_zero_iff.mpr ⟨h1, h2⟩

/-- `adjust_awakenings` commits no edit exactly on the three early-return
paths: within 0.01 of the target, a truncated edit count of zero, or no
feasible candidates. -/
theorem awakeningsEditPlan_none (sel : List ℕ → ℕ → List ℕ) (values : List ℤ)
    (t : ℚ) (h0 : values.length ≠ 0)
    (h : ratAbs (intMeanQ values - t) < 1/100 ∨
      (⌊ratAbs (t - intMeanQ values) * values.length⌋).toNat = 0 ∨
      candidateIdx (decide (t > intMeanQ values)) 0 values = []) :
    awakeningsEditPlan sel values t = some none := by
  simp only [awakeningsEditPlan]
  rw [if_neg h0]
  split_ifs with h1 h2 h3
  · rfl
  · rfl
  · rfl
  · exfalso
    rcases h with h | h | h
    · exact h1 h
    · exact h2 h
    · exact h3 (by rw [h]; rfl)

theorem adjustAwakeningsGroup_noop (sel : List ℕ → ℕ → List ℕ)
    (p : Response → Bool) (t : ℚ) (rs : List Response)
    (h0 : ((rs.filter p).map fun r => r.awakenings).length ≠ 0)
    (h : ratAbs (intMeanQ ((rs.filter p).map fun r => r.awakenings) - t) < 1/100 ∨
      (⌊ratAbs (t - intMeanQ ((rs.filter p).map fun r => r.awakenings)) *
        ((rs.filter p).map fun r => r.awakenings).length⌋).toNat = 0 ∨
      candidateIdx (decide (t > intMeanQ ((rs.filter p).map fun r => r.awakenings)))
        0 ((rs.filter p).map fun r => r.awakenings) = []) :
    adjustAwakeningsGroup sel p t rs = some rs := by
  simp only [adjustAwakeningsGroup, awakeningsEditPlan_none sel _ t h0 h]

/-- One `adjust_symptom_rates` iteration commits no edit when the rate is
within 0.01 of the target or the truncated target count equals the current
count. -/
theorem adjustSymptomRateGroup_noop (sel : List ℕ → ℕ → List ℕ)
    (p : Response → Bool) (symptom : String) (targetRate : ℚ)
    (rs : List Response) (h0 : (rs.filter p).length ≠ 0)
    (h : ratAbs (((rs.filter p).countP fun r => decide (symptom ∈ getSymptoms r) : ℚ) /
        ((rs.filter p).length : ℚ) - targetRate) < 1/100 ∨
      ⌊targetRate * ((rs.filter p).length : ℚ)⌋ =
        ((rs.filter p).countP fun r => decide (symptom ∈ getSymptoms r) : ℤ)) :
    adjustSymptomRateGroup sel p symptom targetRate rs = some rs := by
  simp only [adjustSymptomRateGroup]
  rw [if_neg h0]
  split_ifs with h1 h2 h3
  · rfl
  · rfl
  · exfalso
    rcases h with h | h
    · exact h1 h
    · omega
  · exfalso
    rcases h with h | h
    · exact h1 h
    · omega

/-- `adjust_intervention_effect` commits no edit when the intervention
luteal group is empty or its mean glucose is within 0.5 of the target. -/
theorem adjustInterventionEffectStep_noop (params : CohortParameters)
    (rs : List Response)
    (h : ((rs.filter interventionLutealPred).map fun r => r.glucose) = [] ∨
      ratAbs (listMean ((rs.filter interventionLutealPred).map fun r => r.glucose) -
        interventionTargetGlucose params) < 1/2) :
    adjustInterventionEffectStep params rs = rs := by
  simp only [adjustInterventionEffectStep]
  split_ifs with h1 h2
  · rfl
  · rfl
  · exfalso
    rcases h with h | h
    · rw [h] at h1
      exact h1 rfl
    · exact h2 h

/-- **C2** (amended, proved).  Retrofit is a no-op exactly on already-stable
cohorts: when every adjustment's own no-op condition holds (awakenings
within 0.01 of target, truncated edit count zero or no feasible candidate;
symptom rates within 0.01 or at the truncated target count; intervention
group empty or within 0.5), `retrofit_cohort` returns the cohort
unchanged, for every selection the random generator could make.  A second
run immediately after a first is *not* always a no-op: when candidate
capping leaves a statistic outside its no-op window the second run edits
the files again (see the counterexample). -/
theorem retrofitCohort_noop_of_stable (sel : List ℕ → ℕ → List ℕ)
    (params : CohortParameters) (rs : List Response)
    (h : retrofitStable params rs) :
    retrofitCohort sel params rs = some rs := by
  obtain ⟨⟨ha0, ha⟩, ⟨hb0, hb⟩, ⟨hc0, hc⟩, ⟨hd0, hd⟩, he⟩ := h
  have e1 := adjustAwakeningsGroup_noop sel isFollicularResp
    params.awakeningsFollicularMean rs ha0 ha
  have e2 := adjustAwakeningsGroup_noop sel isLutealResp
    (params.awakeningsFollicularMean + params.lutealAwakeningsIncrease) rs hb0 hb
  have e3 := adjustSymptomRateGroup_noop sel isFollicularResp "night-sweats"
    params.nightSweatsProbFollicular rs hc0
    (hc ("night-sweats", params.nightSweatsProbFollicular) (List.mem_cons_self _ _))
  have e4 := adjustSymptomRateGroup_noop sel isFollicularResp "palpitations"
    params.palpitationsProbFollicular rs hc0
    (hc ("palpitations", params.palpitationsProbFollicular)
      (List.mem_cons_of_mem _ (List.mem_cons_self _ _)))
  have e5 := adjustSymptomRateGroup_noop sel isFollicularResp "dizziness"
    params.dizzinessProbFollicular rs hc0
    (hc ("dizziness", params.dizzinessProbFollicular)
      (List.mem_cons_of_mem _ (List.mem_cons_of_mem _ (List.mem_cons_self _ _))))
  have e6 := adjustSymptomRateGroup_noop sel isLutealResp "night-sweats"
    params.nightSweatsProbLuteal rs hd0
    (hd ("night-sweats", params.nightSweatsProbLuteal) (List.mem_cons_self _ _))
  have e7 := adjustSymptomRateGroup_noop sel isLutealResp "palpitations"
    params.palpitationsProbLuteal rs hd0
    (hd ("palpitations", params.palpitationsProbLuteal)
      (List.mem_cons_of_mem _ (List.mem_cons_self _ _)))
  have e8 := adjustSymptomRateGroup_noop sel isLutealResp "dizziness"
    params.dizzinessProbLuteal rs hd0
    (hd ("dizziness", params.dizzinessProbLuteal)
      (List.mem_cons_of_mem _ (List.mem_cons_of_mem _ (List.mem_cons_self _ _))))
  have e9 := adjustInterventionEffectStep_noop params rs he
  simp only [retrofitCohort, Option.bind_eq_bind, e1, Option.some_bind, e2, e3,
    e4, e5, e6, e7, e8, e9, pure]

theorem toNat_floor_zero (x : ℚ) (h2 : x < 1) : (⌊x⌋).toNat = 0 := by
  rw [Int.toNat_eq_zero]
  have h := Int.floor_lt.mpr (show x < ((1:ℤ):ℚ) by exact_mod_cast h2)
  omega

theorem symptom_cond_of_zero_count (group : List Response) (symptom : String)
    (target : ℚ)
    (hcount : (group.countP fun r => decide (symptom ∈ getSymptoms r)) = 0)
    (h1 : 0 ≤ target * (group.length : ℚ))
    (h2 : target * (group.length : ℚ) < 1) :
    ratAbs ((group.countP fun r => decide (symptom ∈ getSymptoms r) : ℚ) /
        (group.length : ℚ) - target) < 1/100 ∨
      ⌊target * (group.length : ℚ)⌋ =
        (group.countP fun r => decide (symptom ∈ getSymptoms r) : ℤ) := by
  right
  rw [hcount, floor_eq_zero_of_lt_one _ h1 h2]
  rfl

theorem stableCohort_stable : retrofitStable defaultCohortParams stableCohort := by
  have hf : stableCohort.filter isFollicularResp = [stableFolResp] := by decide
  have hl : stableCohort.filter isLutealResp = [stableLutResp] := by decide
  have hi : stableCohort.filter interventionLutealPred = [] := by decide
  refine ⟨⟨?_, Or.inr (Or.inl ?_)⟩, ⟨?_, Or.inr (Or.inl ?_)⟩, ⟨?_, ?_⟩, ⟨?_, ?_⟩, ?_⟩
  · rw [hf]; simp
  · rw [hf]
    exact toNat_floor_zero _ (by norm_num [intMeanQ, ratAbs, stableFolResp, defaultCohortParams])
  · rw [hl]; simp
  · rw [hl]
    exact toNat_floor_zero _
      (by norm_num [intMeanQ, ratAbs, stableLutResp, stableFolResp, defaultCohortParams])
  · rw [hf]; simp
  · intro st hst
    rw [hf]
    simp only [List.mem_cons, List.not_mem_nil, or_false] at hst
    rcases hst with h | h | h <;> subst h <;>
      exact symptom_cond_of_zero_count _ _ _ (by decide)
        (by norm_num [defaultCohortParams]) (by norm_num [defaultCohortParams])
  · rw [hl]; simp
  · intro st hst
    rw [hl]
    simp only [List.mem_cons, List.not_mem_nil, or_false] at hst
    rcases hst with h | h | h <;> subst h <;>
      exact symptom_cond_of_zero_count _ _ _ (by decide)
        (by norm_num [defaultCohortParams]) (by norm_num [defaultCohortParams])
  · rw [hi]
    exact Or.inl rfl

/-- Witness for the amended C2: a concrete stable cohort on which
`retrofit_cohort` makes zero changes. -/
theorem retrofitCohort_noop_of_stable_witness :
    retrofitStable defaultCohortParams stableCohort ∧
      retrofitCohort selTake defaultCohortParams stableCohort = some stableCohort :=
  ⟨stableCohort_stable,
    retrofitCohort_noop_of_stable selTake defaultCohortParams stableCohort
      stableCohort_stable⟩

/-! ## C2 counterexample: a second retrofit run edits again

Two luteal documents with 9 awakenings: the target mean is 1.4, so the
first run wants `int(7.6·2) = 15` decrements but only 2 candidates exist;
after the capped pass the mean is 8, still far from 1.4, and the second
run decrements again. -/
theorem symGroup_noop_zero (sel : List ℕ → ℕ → List ℕ) (p : Response → Bool)
    (symptom : String) (target : ℚ) (rs group : List Response)
    (hf : rs.filter p = group)
    (hcount : (group.countP fun r => decide (symptom ∈ getSymptoms r)) = 0)
    (hlen : group.length ≠ 0)
    (h1 : 0 ≤ target * (group.length : ℚ))
    (h2 : target * (group.length : ℚ) < 1) :
    adjustSymptomRateGroup sel p symptom target rs = some rs := by
  apply adjustSymptomRateGroup_noop
  · rw [hf]; exact hlen
  · rw [hf]; exact symptom_cond_of_zero_count group symptom target hcount h1 h2

theorem intervStep_noop_empty (params : CohortParameters) (rs : List Response)
    (hfi : rs.filter interventionLutealPred = []) :
    adjustInterventionEffectStep params rs = rs :=
  adjustInterventionEffectStep_noop params rs (Or.inl (by rw [hfi]; rfl))

theorem cex_fol_noop (sel : List ℕ → ℕ → List ℕ) (rs : List Response)
    (hf : rs.filter isFollicularResp = [cexFolResp]) :
    adjustAwakeningsGroup sel isFollicularResp
      defaultCohortParams.awakeningsFollicularMean rs = some rs := by
  apply adjustAwakeningsGroup_noop
  · rw [hf]; simp
  · rw [hf]
    exact Or.inr (Or.inl (toNat_floor_zero _
      (by norm_num [intMeanQ, ratAbs, cexFolResp, stableFolResp, defaultCohortParams])))

theorem cex_lut_edit_once :
    adjustAwakeningsGroup selTake isLutealResp
      (defaultCohortParams.awakeningsFollicularMean +
        defaultCohortParams.lutealAwakeningsIncrease) cexCohort
      = some cexCohortOnce := by
  have hv : (cexCohort.filter isLutealResp).map (fun r => r.awakenings) = [9, 9] := by
    decide
  have hp : awakeningsEditPlan selTake [(9:ℤ), 9]
      (defaultCohortParams.awakeningsFollicularMean +
        defaultCohortParams.lutealAwakeningsIncrease)
      = some (some (false, [0, 1])) := by
    norm_num [awakeningsEditPlan, intMeanQ, ratAbs, candidateIdx, selTake,
      defaultCohortParams]
  simp only [adjustAwakeningsGroup, hv, hp]
  decide

theorem cex_lut_edit_twice :
    adjustAwakeningsGroup selTake isLutealResp
      (defaultCohortParams.awakeningsFollicularMean +
        defaultCohortParams.lutealAwakeningsIncrease) cexCohortOnce
      = some cexCohortTwice := by
  have hv : (cexCohortOnce.filter isLutealResp).map (fun r => r.awakenings) = [8, 8] := by
    decide
  have hp : awakeningsEditPlan selTake [(8:ℤ), 8]
      (defaultCohortParams.awakeningsFollicularMean +
        defaultCohortParams.lutealAwakeningsIncrease)
      = some (some (false, [0, 1])) := by
    norm_num [awakeningsEditPlan, intMeanQ, ratAbs, candidateIdx, selTake,
      defaultCohortParams]
  simp only [adjustAwakeningsGroup, hv, hp]
  decide

theorem cex_run_once :
    retrofitCohort selTake defaultCohortParams cexCohort = some cexCohortOnce := by
  have hf : cexCohort.filter isFollicularResp = [cexFolResp] := by decide
  have hf1 : cexCohortOnce.filter isFollicularResp = [cexFolResp] := by decide
  have hl1 : cexCohortOnce.filter isLutealResp = [cexLutResp8, cexLutResp8] := by decide
  have hi1 : cexCohortOnce.filter interventionLutealPred = [] := by decide
  have e1 := cex_fol_noop selTake cexCohort hf
  have e2 := cex_lut_edit_once
  have e3 := symGroup_noop_zero selTake isFollicularResp "night-sweats"
    defaultCohortParams.nightSweatsProbFollicular cexCohortOnce [cexFolResp] hf1
    (by decide) (by simp) (by norm_num [defaultCohortParams])
    (by norm_num [defaultCohortParams])
  have e4 := symGroup_noop_zero selTake isFollicularResp "palpitations"
    defaultCohortParams.palpitationsProbFollicular cexCohortOnce [cexFolResp] hf1
    (by decide) (by simp) (by norm_num [defaultCohortParams])
    (by norm_num [defaultCohortParams])
  have e5 := symGroup_noop_zero selTake isFollicularResp "dizziness"
    defaultCohortParams.dizzinessProbFollicular cexCohortOnce [cexFolResp] hf1
    (by decide) (by simp) (by norm_num [defaultCohortParams])
    (by norm_num [defaultCohortParams])
  have e6 := symGroup_noop_zero selTake isLutealResp "night-sweats"
    defaultCohortParams.nightSweatsProbLuteal cexCohortOnce [cexLutResp8, cexLutResp8]
    hl1 (by decide) (by simp) (by norm_num [defaultCohortParams])
    (by norm_num [defaultCohortParams])
  have e7 := symGroup_noop_zero selTake isLutealResp "palpitations"
    defaultCohortParams.palpitationsProbLuteal cexCohortOnce [cexLutResp8, cexLutResp8]
    hl1 (by decide) (by simp) (by norm_num [defaultCohortParams])
    (by norm_num [defaultCohortParams])
  have e8 := symGroup_noop_zero selTake isLutealResp "dizziness"
    defaultCohortParams.dizzinessProbLuteal cexCohortOnce [cexLutResp8, cexLutResp8]
    hl1 (by decide) (by simp) (by norm_num [defaultCohortParams])
    (by norm_num [defaultCohortParams])
  have e9 := intervStep_noop_empty defaultCohortParams cexCohortOnce hi1
  simp only [retrofitCohort, Option.bind_eq_bind, e1, Option.some_bind, e2, e3,
    e4, e5, e6, e7, e8, e9, pure]

theorem cex_run_twice :
    retrofitCohort selTake defaultCohortParams cexCohortOnce = some cexCohortTwice := by
  have hf1 : cexCohortOnce.filter isFollicularResp = [cexFolResp] := by decide
  have hf2 : cexCohortTwice.filter isFollicularResp = [cexFolResp] := by decide
  have hl2 : cexCohortTwice.filter isLutealResp = [cexLutResp7, cexLutResp7] := by decide
  have hi2 : cexCohortTwice.filter interventionLutealPred = [] := by decide
  have e1 := cex_fol_noop selTake cexCohortOnce hf1
  have e2 := cex_lut_edit_twice
  have e3 := symGroup_noop_zero selTake isFollicularResp "night-sweats"
    defaultCohortParams.nightSweatsProbFollicular cexCohortTwice [cexFolResp] hf2
    (by decide) (by simp) (by norm_num [defaultCohortParams])
    (by norm_num [defaultCohortParams])
  have e4 := symGroup_noop_zero selTake isFollicularResp "palpitations"
    defaultCohortParams.palpitationsProbFollicular cexCohortTwice [cexFolResp] hf2
    (by decide) (by simp) (by norm_num [defaultCohortParams])
    (by norm_num [defaultCohortParams])
  have e5 := symGroup_noop_zero selTake isFollicularResp "dizziness"
    defaultCohortParams.dizzinessProbFollicular cexCohortTwice [cexFolResp] hf2
    (by decide) (by simp) (by norm_num [defaultCohortParams])
    (by norm_num [defaultCohortParams])
  have e6 := symGroup_noop_zero selTake isLutealResp "night-sweats"
    defaultCohortParams.nightSweatsProbLuteal cexCohortTwice [cexLutResp7, cexLutResp7]
    hl2 (by decide) (by simp) (by norm_num [defaultCohortParams])
    (by norm_num [defaultCohortParams])
  have e7 := symGroup_noop_zero selTake isLutealResp "palpitations"
    defaultCohortParams.palpitationsProbLuteal cexCohortTwice [cexLutResp7, cexLutResp7]
    hl2 (by decide) (by simp) (by norm_num [defaultCohortParams])
    (by norm_num [defaultCohortParams])
  have e8 := symGroup_noop_zero selTake isLutealResp "dizziness"
    defaultCohortParams.dizzinessProbLuteal cexCohortTwice [cexLutResp7, cexLutResp7]
    hl2 (by decide) (by simp) (by norm_num [defaultCohortParams])
    (by norm_num [defaultCohortParams])
  have e9 := intervStep_noop_empty defaultCohortParams cexCohortTwice hi2
  simp only [retrofitCohort, Option.bind_eq_bind, e1, Option.some_bind, e2, e3,
    e4, e5, e6, e7, e8, e9, pure]

/-- **C2** (counterexample).  On the concrete cohort `cexCohort` a second
`retrofit_cohort` run immediately after the first (same parameters, same
selection behavior) changes the files again: the first run turns the two
luteal awakening counts 9,9 into 8,8 (the wanted 15 decrements are capped
at the 2 candidates), and the second run — not within tolerance — edits
them again to 7,7. -/
theorem retrofitCohort_not_idempotent :
    (retrofitCohort selTake defaultCohortParams cexCohort).bind
      (retrofitCohort selTake defaultCohortParams) ≠
      retrofitCohort selTake defaultCohortParams cexCohort := by
  rw [cex_run_once, Option.some_bind, cex_run_twice]
  decide

theorem candidateIdx_ge (b : Bool) :
    ∀ (l : List ℤ) (k i : ℕ), i ∈ candidateIdx b k l → k ≤ i := by
  intro l
  induction l with
  | nil => intro k i hi; simp [candidateIdx] at hi
  | cons v rest ih =>
    intro k i hi
    rw [candidateIdx] at hi
    by_cases hP : (if b = true then v ≤ 1 else 2 ≤ v)
    · rw [if_pos hP] at hi
      rcases List.mem_cons.mp hi with h | h
      · omega
      · have := ih (k + 1) i h
        omega
    · rw [if_neg hP] at hi
      have := ih (k + 1) i hi
      omega

theorem candidateIdx_head (b : Bool) (v : ℤ) (rest : List ℤ) (k : ℕ)
    (h : k ∈ candidateIdx b k (v :: rest)) :
    (if b = true then v ≤ 1 else 2 ≤ v) := by
  by_cases hP : (if b = true then v ≤ 1 else 2 ≤ v)
  · exact hP
  · exfalso
    rw [candidateIdx, if_neg hP] at h
    have := candidateIdx_ge b rest (k + 1) k h
    omega

theorem candidateIdx_tail (b : Bool) (v : ℤ) (rest : List ℤ) (k i : ℕ)
    (hi : i ∈ candidateIdx b k (v :: rest)) (hne : i ≠ k) :
    i ∈ candidateIdx b (k + 1) rest := by
  rw [candidateIdx] at hi
  by_cases hP : (if b = true then v ≤ 1 else 2 ≤ v)
  · rw [if_pos hP] at hi
    rcases List.mem_cons.mp hi with h | h
    · exact absurd h hne
    · exact h
  · rwa [if_neg hP] at hi

theorem applyEdits_congr (b : Bool) (S S' : List ℕ) :
    ∀ (l : List ℤ) (k : ℕ), (∀ i, k ≤ i → (i ∈ S ↔ i ∈ S')) →
      applyEdits b S k l = applyEdits b S' k l := by
  intro l
  induction l with
  | nil => intro k _; rfl
  | cons v rest ih =>
    intro k h
    rw [applyEdits, applyEdits]
    have hk := h k le_rfl
    congr 1
    · by_cases hmem : k ∈ S
      · rw [if_pos hmem, if_pos (hk.mp hmem)]
      · rw [if_neg hmem, if_neg (fun hx => hmem (hk.mpr hx))]
    · exact ih (k + 1) fun i hi => h i (by omega)

theorem editValue_ne (b : Bool) (v : ℤ)
    (hv : if b = true then v ≤ 1 else 2 ≤ v) : editValue b v ≠ v := by
  cases b with
  | true => simp [editValue]
  | false =>
    simp only [Bool.false_eq_true, if_false] at hv
    simp only [editValue, Bool.false_eq_true, if_false, zmax0]
    split <;> omega

theorem countDiffZ_applyEdits (b : Bool) :
    ∀ (values : List ℤ) (S : List ℕ) (k : ℕ), S.Nodup →
      (∀ i ∈ S, i ∈ candidateIdx b k values) →
      countDiffZ values (applyEdits b S k values) = S.length := by
  intro values
  induction values with
  | nil =>
    intro S k _ hsub
    have hS : S = [] := List.eq_nil_iff_forall_not_mem.mpr fun i hi => by
      have := hsub i hi
      simp [candidateIdx] at this
    rw [hS]
    rfl
  | cons v rest ih =>
    intro S k hnd hsub
    by_cases hk : k ∈ S
    · have hPv := candidateIdx_head b v rest k (hsub k hk)
      have hchanged : v ≠ editValue b v := fun he => editValue_ne b v hPv he.symm
      have hS' : ∀ i, k + 1 ≤ i → (i ∈ S ↔ i ∈ S.erase k) := by
        intro i hi
        rw [List.Nodup.mem_erase_iff hnd]
        exact ⟨fun h => ⟨by omega, h⟩, fun h => h.2⟩
      have hsub' : ∀ i ∈ S.erase k, i ∈ candidateIdx b (k + 1) rest := by
        intro i hi
        rw [List.Nodup.mem_erase_iff hnd] at hi
        exact candidateIdx_tail b v rest k i (hsub i hi.2) hi.1
      rw [applyEdits, if_pos hk, countDiffZ, if_neg hchanged]
      rw [applyEdits_congr b S (S.erase k) rest (k + 1) hS']
      rw [ih (S.erase k) (k + 1) (hnd.erase k) hsub']
      have h1 := List.length_erase_of_mem hk
      have h2 : 0 < S.length := List.length_pos.mpr fun he => by
        rw [he] at hk
        exact List.not_mem_nil _ hk
      omega
    · have hsub' : ∀ i ∈ S, i ∈ candidateIdx b (k + 1) rest := by
        intro i hi
        exact candidateIdx_tail b v rest k i (hsub i hi)
          (fun he => hk (he ▸ hi))
      rw [applyEdits, if_neg hk, countDiffZ, if_pos rfl]
      rw [ih S (k + 1) hnd hsub']
      omega

/-- **C6** (amended, proved).  `adjust_awakenings` on a non-empty record
list with target mean `t`: if the current mean is within 0.01 of `t` it
changes no record, and if no feasible candidate exists it changes no
record; otherwise, whenever the selection oracle returns a duplicate-free
subset of the candidates of the requested size (which is what
`rng.choice(..., replace=False)` produces), it applies ±1 edits to exactly
`min(int(|t − mean|·n), #candidates)` records — the code *truncates*
`|t − mean|·n` with `int(...)` instead of rounding it, and a zero
truncated count is a further no-op. -/
theorem adjustAwakenings_edit_count (sel : List ℕ → ℕ → List ℕ)
    (values : List ℤ) (t : ℚ) (hne : values.length ≠ 0) :
    (ratAbs (intMeanQ values - t) < 1/100 →
      adjustAwakeningsVals sel values t = some values) ∧
    (awakCandidates values t = [] →
      adjustAwakeningsVals sel values t = some values) ∧
    (¬ ratAbs (intMeanQ values - t) < 1/100 →
      awakGapCount values t ≠ 0 →
      awakCandidates values t ≠ [] →
      (sel (awakCandidates values t) (awakNumToChange values t)).Nodup →
      (∀ i ∈ sel (awakCandidates values t) (awakNumToChange values t),
        i ∈ awakCandidates values t) →
      (sel (awakCandidates values t) (awakNumToChange values t)).length =
        awakNumToChange values t →
      ∃ out, adjustAwakeningsVals sel values t = some out ∧
        countDiffZ values out = awakNumToChange values t) := by
  refine ⟨?_, ?_, ?_⟩
  · intro h
    rw [adjustAwakeningsVals, awakeningsEditPlan_none sel values t hne (Or.inl h)]
  · intro h
    simp only [awakCandidates, awakNeedInc] at h
    rw [adjustAwakeningsVals,
      awakeningsEditPlan_none sel values t hne (Or.inr (Or.inr h))]
  · intro htol hnum hcand hnd hsub hlen
    simp only [awakCandidates, awakNeedInc, awakGapCount, awakNumToChange]
      at hnum hcand hnd hsub hlen ⊢
    have hlen0 : ¬ (candidateIdx (decide (t > intMeanQ values)) 0 values).length = 0 :=
      fun h => hcand (List.length_eq_zero.mp h)
    have hplan : awakeningsEditPlan sel values t =
        some (some (decide (t > intMeanQ values),
          sel (candidateIdx (decide (t > intMeanQ values)) 0 values)
            (min (⌊ratAbs (t - intMeanQ values) * values.length⌋).toNat
              (candidateIdx (decide (t > intMeanQ values)) 0 values).length))) := by
      simp only [awakeningsEditPlan]
      rw [if_neg hne, if_neg htol, if_neg hnum, if_neg hlen0]
    refine ⟨_, by rw [adjustAwakeningsVals, hplan], ?_⟩
    rw [countDiffZ_applyEdits (decide (t > intMeanQ values)) values _ 0 hnd hsub,
      hlen]

/-- **C6** (counterexample).  On records `[0, 0]` with target mean 0.8 the
claim predicts `round(0.8·2) = round(1.6) = 2` edits (both records are
feasible candidates, so the cap does not bind), but the code computes
`int(1.6) = 1` and edits exactly one record. -/
theorem adjustAwakenings_count_truncates :
    adjustAwakeningsVals selTake [0, 0] (4/5) = some [1, 0] ∧
      countDiffZ [0, 0] [1, 0] = 1 ∧
      rndHalfEvenZ (ratAbs ((4/5 : ℚ) - intMeanQ [0, 0]) * 2) = 2 := by
  refine ⟨?_, by decide, ?_⟩
  · norm_num [adjustAwakeningsVals, awakeningsEditPlan, intMeanQ, ratAbs,
      candidateIdx, selTake, applyEdits, editValue]
  · norm_num [rndHalfEvenZ, ratAbs, intMeanQ]

/-- Witness for the amended C6 on records `[0, 0]` with target 0.8: exactly
`min(int(1.6), 2) = 1` record is edited. -/
theorem adjustAwakenings_edit_count_witness :
    ∃ out, adjustAwakeningsVals selTake [0, 0] (4/5) = some out ∧
      countDiffZ [0, 0] out = 1 := by
  have hm : intMeanQ [(0:ℤ), 0] = 0 := by norm_num [intMeanQ]
  have hb : awakNeedInc [(0:ℤ), 0] (4/5) = true := by
    simp only [awakNeedInc, hm]
    exact decide_eq_true (by norm_num)
  have hC : awakCandidates [(0:ℤ), 0] (4/5) = [0, 1] := by
    simp only [awakCandidates, hb]
    decide
  have hG : awakGapCount [(0:ℤ), 0] (4/5) = 1 := by
    simp only [awakGapCount, hm]
    norm_num [ratAbs]
  have hN : awakNumToChange [(0:ℤ), 0] (4/5) = 1 := by
    simp only [awakNumToChange, hC, hG]
    decide
  obtain ⟨out, h1, h2⟩ :=
    (adjustAwakenings_edit_count selTake [0, 0] (4/5) (by decide)).2.2
      (by rw [hm]; norm_num [ratAbs])
      (by rw [hG]; norm_num)
      (by rw [hC]; simp)
      (by rw [hN, hC]; decide)
      (by rw [hN, hC]; decide)
      (by rw [hN, hC]; decide)
  exact ⟨out, h1, by rw [h2, hN]⟩

theorem editValue_nonneg (b : Bool) (x : ℤ) (hx : 0 ≤ x) :
    0 ≤ editValue b x := by
  cases b with
  | true => simp only [editValue, if_pos]; omega
  | false =>
    simp only [editValue, Bool.false_eq_true, if_false, zmax0]
    split <;> omega

theorem applyEdits_nonneg (b : Bool) (S : List ℕ) :
    ∀ (l : List ℤ) (k : ℕ), (∀ v ∈ l, 0 ≤ v) →
      ∀ v ∈ applyEdits b S k l, 0 ≤ v := by
  intro l
  induction l with
  | nil => intro k _ v hv; simp [applyEdits] at hv
  | cons x rest ih =>
    intro k hl v hv
    rw [applyEdits] at hv
    rcases List.mem_cons.mp hv with h | h
    · subst h
      by_cases hk : k ∈ S
      · rw [if_pos hk]
        exact editValue_nonneg b x (hl x (List.mem_cons_self _ _))
      · rw [if_neg hk]
        exact hl x (List.mem_cons_self _ _)
    · exact ih (k + 1) (fun w hw => hl w (List.mem_cons_of_mem _ hw)) v h

/-- **C9** (confirmed).  Awakening counts are never negative at any stage:
`generate_sleep_awakenings` returns an integer ≥ 0 for every possible
normal draw (hence for every phase and every — possibly negative —
correction shift), and `adjust_awakenings` maps non-negative record values
to non-negative record values for every selection, because decrements are
floored at 0. -/
theorem awakenings_never_negative :
    (∀ sample : ℚ, 0 ≤ generateSleepAwakenings sample) ∧
    (∀ (sel : List ℕ → ℕ → List ℕ) (values : List ℤ) (t : ℚ) (out : List ℤ),
      (∀ v ∈ values, 0 ≤ v) → adjustAwakeningsVals sel values t = some out →
      ∀ v ∈ out, 0 ≤ v) := by
  constructor
  · intro sample
    apply rndHalfEvenZ_nonneg
    unfold qmax
    split
    · rename_i h; exact h
    · exact le_refl 0
  · intro sel values t out hvals hout
    rw [adjustAwakeningsVals] at hout
    cases hplan : awakeningsEditPlan sel values t with
    | none => rw [hplan] at hout; cases hout
    | some plan =>
      cases plan with
      | none =>
        rw [hplan] at hout
        have : values = out := by injection hout
        exact this ▸ hvals
      | some pr =>
        obtain ⟨b, S⟩ := pr
        rw [hplan] at hout
        have : applyEdits b S 0 values = out := by injection hout
        exact this ▸ applyEdits_nonneg b S values 0 hvals

/-- Witness for C9: a negative draw still yields a non-negative count, and
a concrete retrofit decrement (awakenings `[5]`, target 0) stays
non-negative. -/
theorem awakenings_never_negative_witness :
    0 ≤ generateSleepAwakenings (-(7/2)) ∧ ∀ v ∈ [(4:ℤ)], 0 ≤ v := by
  have hEq : adjustAwakeningsVals selTake [5] 0 = some [4] := by
    norm_num [adjustAwakeningsVals, awakeningsEditPlan, intMeanQ, ratAbs,
      candidateIdx, selTake, applyEdits, editValue, zmax0]
  exact ⟨awakenings_never_negative.1 _,
    awakenings_never_negative.2 selTake [5] 0 [4] (by decide) hEq⟩

/-- **C5** (counterexample).  No operation fails on a malformed phase
label — there is no `InvalidPhase` error anywhere in the code.  Recording
an observation labelled `"banana"` succeeds and silently counts it as
luteal. -/
theorem recordObservation_banana_silently_luteal :
    (recordObservation emptyTrackerStats bananaObservation).lutealCount = 1 ∧
      (recordObservation emptyTrackerStats bananaObservation).follicularCount = 0 := by
  constructor <;> rfl

/-- **C5** (amended, proved).  The sampler and tracker never fail fast on a
malformed phase label: every phase test is an `if phase == ... / else`
with no error branch, so a label other than `"follicular"` is silently
given the luteal glucose and awakening distributions and counted as
luteal by `record_observation`, and a label other than `"luteal"` keeps
the follicular baseline in `generate_basal_insulin`. -/
theorem malformed_phase_silently_defaults (params : CohortParameters)
    (inIntervention : Bool) (shift baseline reduction : ℚ)
    (s : TrackerStats) (o : Observation) (phase : String)
    (hfol : phase ≠ "follicular") (hlut : phase ≠ "luteal")
    (ho : o.phase = phase) :
    nighttimeGlucoseMean params phase inIntervention shift =
      nighttimeGlucoseMean params "luteal" inIntervention shift ∧
    sleepAwakeningsMean params phase shift =
      sleepAwakeningsMean params "luteal" shift ∧
    basalDoseBeforeNoise params phase inIntervention shift baseline reduction =
      basalDoseBeforeNoise params "follicular" inIntervention shift baseline reduction ∧
    (recordObservation s o).lutealCount = s.lutealCount + 1 ∧
    (recordObservation s o).follicularCount = s.follicularCount := by
  refine ⟨?_, ?_, ?_, ?_, ?_⟩
  · rw [nighttimeGlucoseMean, if_neg hfol, nighttimeGlucoseMean,
      if_neg (by decide : ¬("luteal" : String) = "follicular")]
  · rw [sleepAwakeningsMean, if_neg hfol, sleepAwakeningsMean,
      if_neg (by decide : ¬("luteal" : String) = "follicular")]
  · rw [basalDoseBeforeNoise, if_neg hlut, basalDoseBeforeNoise,
      if_neg (by decide : ¬("follicular" : String) = "luteal")]
  · rw [recordObservation]
    simp only [ho, if_neg hfol]
  · rw [recordObservation]
    simp only [ho, if_neg hfol]

/-- Witness for the amended C5 at the concrete label `"banana"`. -/
theorem malformed_phase_silently_defaults_witness :
    nighttimeGlucoseMean defaultCohortParams "banana" false 0 =
      nighttimeGlucoseMean defaultCohortParams "luteal" false 0 ∧
    sleepAwakeningsMean defaultCohortParams "banana" 0 =
      sleepAwakeningsMean defaultCohortParams "luteal" 0 ∧
    basalDoseBeforeNoise defaultCohortParams "banana" false 0 14 (3/20) =
      basalDoseBeforeNoise defaultCohortParams "follicular" false 0 14 (3/20) ∧
    (recordObservation emptyTrackerStats bananaObservation).lutealCount =
      emptyTrackerStats.lutealCount + 1 ∧
    (recordObservation emptyTrackerStats bananaObservation).follicularCount =
      emptyTrackerStats.follicularCount :=
  malformed_phase_silently_defaults defaultCohortParams false 0 14 (3/20)
    emptyTrackerStats bananaObservation "banana" (by decide) (by decide) rfl

/-- **C8** (confirmed).  `get_correction_factors` returns the empty map
whenever zero observations have been recorded, or the recorded total has
reached or exceeded the target total. -/
theorem getCorrectionFactors_empty_of_done (params : CohortParameters)
    (targetTotal : ℕ) (stats : TrackerStats)
    (h : stats.totalObservations = 0 ∨ targetTotal ≤ stats.totalObservations) :
    getCorrectionFactors params targetTotal stats = [] := by
  rw [getCorrectionFactors]
  rcases h with h | h
  · rw [if_pos h]
  · by_cases h0 : stats.totalObservations = 0
    · rw [if_pos h0]
    · rw [if_neg h0, if_pos (by omega)]

/-- Witness for C8: with 7 observations recorded against a target of 5 the
correction map is empty. -/
theorem getCorrectionFactors_empty_of_done_witness :
    getCorrectionFactors defaultCohortParams 5
      { emptyTrackerStats with totalObservations := 7 } = [] :=
  getCorrectionFactors_empty_of_done defaultCohortParams 5
    { emptyTrackerStats with totalObservations := 7 } (Or.inr (by norm_num))

theorem hasKey_nil (k : String) : ¬ hasKey [] k := by
  simp [hasKey]

theorem hasKey_append {l1 l2 : List (String × ℚ)} {k : String} :
    hasKey (l1 ++ l2) k ↔ hasKey l1 k ∨ hasKey l2 k := by
  constructor
  · rintro ⟨e, he, hk⟩
    rcases List.mem_append.mp he with h | h
    · exact Or.inl ⟨e, h, hk⟩
    · exact Or.inr ⟨e, h, hk⟩
  · rintro (⟨e, h, hk⟩ | ⟨e, h, hk⟩)
    · exact ⟨e, List.mem_append.mpr (Or.inl h), hk⟩
    · exact ⟨e, List.mem_append.mpr (Or.inr h), hk⟩

theorem hasKey_singleton {a : String} {v : ℚ} {k : String} :
    hasKey [(a, v)] k ↔ a = k := by
  simp [hasKey]

theorem symptomPair_keys {rate target lowEps highEps boostVal reduceVal : ℚ}
    {boostKey reduceKey k : String}
    (h : hasKey (symptomPair rate target lowEps highEps boostKey boostVal
      reduceKey reduceVal) k) : k = boostKey ∨ k = reduceKey := by
  simp only [symptomPair] at h
  split_ifs at h <;>
    first
      | exact Or.inl (hasKey_singleton.mp h).symm
      | exact Or.inr (hasKey_singleton.mp h).symm
      | exact absurd h (hasKey_nil _)

theorem symptomPair_not_both {rate target lowEps highEps boostVal reduceVal : ℚ}
    {boostKey reduceKey : String} (hne : boostKey ≠ reduceKey)
    (hb : hasKey (symptomPair rate target lowEps highEps boostKey boostVal
      reduceKey reduceVal) boostKey)
    (hr : hasKey (symptomPair rate target lowEps highEps boostKey boostVal
      reduceKey reduceVal) reduceKey) : False := by
  simp only [symptomPair] at hb hr
  split_ifs at hb hr
  · exact hne (hasKey_singleton.mp hr)
  · exact hne (hasKey_singleton.mp hb).symm
  · exact hasKey_nil _ hb

theorem phaseBalancePart_keys {stats : TrackerStats} {k : String}
    (h : hasKey (phaseBalancePart stats) k) :
    k = "prefer_follicular" ∨ k = "prefer_luteal" := by
  simp only [phaseBalancePart] at h
  split_ifs at h <;>
    first
      | exact Or.inl (hasKey_singleton.mp h).symm
      | exact Or.inr (hasKey_singleton.mp h).symm
      | exact absurd h (hasKey_nil _)

theorem phaseBalancePart_not_both {stats : TrackerStats}
    (hf : hasKey (phaseBalancePart stats) "prefer_follicular")
    (hl : hasKey (phaseBalancePart stats) "prefer_luteal") : False := by
  simp only [phaseBalancePart] at hf hl
  split_ifs at hf hl <;>
    first
      | exact absurd (hasKey_singleton.mp hl) (by decide)
      | exact absurd (hasKey_singleton.mp hf) (by decide)
      | exact hasKey_nil _ hf

theorem pumpRatioPart_keys {params : CohortParameters} {stats : TrackerStats}
    {k : String} (h : hasKey (pumpRatioPart params stats) k) :
    k = "prefer_pump" ∨ k = "prefer_injection" := by
  simp only [pumpRatioPart] at h
  split_ifs at h <;>
    first
      | exact Or.inl (hasKey_singleton.mp h).symm
      | exact Or.inr (hasKey_singleton.mp h).symm
      | exact absurd h (hasKey_nil _)

theorem pumpRatioPart_not_both {params : CohortParameters} {stats : TrackerStats}
    (hp : hasKey (pumpRatioPart params stats) "prefer_pump")
    (hi : hasKey (pumpRatioPart params stats) "prefer_injection") : False := by
  simp only [pumpRatioPart] at hp hi
  split_ifs at hp hi <;>
    first
      | exact absurd (hasKey_singleton.mp hi) (by decide)
      | exact absurd (hasKey_singleton.mp hp) (by decide)
      | exact hasKey_nil _ hp

theorem agePart_keys {params : CohortParameters} {stats : TrackerStats}
    {k : String} (h : hasKey (agePart params stats) k) : k = "age_shift" := by
  simp only [agePart] at h
  split_ifs at h <;>
    first
      | exact (hasKey_singleton.mp h).symm
      | exact absurd h (hasKey_nil _)

theorem folGlucosePart_keys {params : CohortParameters} {stats : TrackerStats}
    {k : String} (h : hasKey (folGlucosePart params stats) k) :
    k = "follicular_glucose_shift" := by
  simp only [folGlucosePart] at h
  split_ifs at h <;>
    first
      | exact (hasKey_singleton.mp h).symm
      | exact absurd h (hasKey_nil _)

theorem lutGlucosePart_keys {params : CohortParameters} {stats : TrackerStats}
    {k : String} (h : hasKey (lutGlucosePart params stats) k) :
    k = "luteal_glucose_shift" := by
  simp only [lutGlucosePart] at h
  split_ifs at h <;>
    first
      | exact (hasKey_singleton.mp h).symm
      | exact absurd h (hasKey_nil _)

theorem folBasalPart_keys {params : CohortParameters} {stats : TrackerStats}
    {k : String} (h : hasKey (folBasalPart params stats) k) :
    k = "basal_insulin_shift" := by
  simp only [folBasalPart] at h
  split_ifs at h <;>
    first
      | exact (hasKey_singleton.mp h).symm
      | exact absurd h (hasKey_nil _)

theorem lutBasalPart_keys {params : CohortParameters} {stats : TrackerStats}
    {k : String} (h : hasKey (lutBasalPart params stats) k) :
    k = "luteal_basal_shift" := by
  simp only [lutBasalPart] at h
  split_ifs at h <;>
    first
      | exact (hasKey_singleton.mp h).symm
      | exact absurd h (hasKey_nil _)

theorem folAwakPart_keys {params : CohortParameters} {stats : TrackerStats}
    {k : String} (h : hasKey (folAwakPart params stats) k) :
    k = "follicular_awakenings_shift" := by
  simp only [folAwakPart] at h
  split_ifs at h <;>
    first
      | exact (hasKey_singleton.mp h).symm
      | exact absurd h (hasKey_nil _)

theorem lutAwakPart_keys {params : CohortParameters} {stats : TrackerStats}
    {k : String} (h : hasKey (lutAwakPart params stats) k) :
    k = "luteal_awakenings_shift" := by
  simp only [lutAwakPart] at h
  split_ifs at h <;>
    first
      | exact (hasKey_singleton.mp h).symm
      | exact absurd h (hasKey_nil _)

theorem folSymptomsPart_keys {params : CohortParameters} {stats : TrackerStats}
    {k : String} (h : hasKey (folSymptomsPart params stats) k) :
    k = "follicular_sweats_boost" ∨ k = "follicular_sweats_reduce" ∨
    k = "follicular_palpitations_boost" ∨ k = "follicular_palpitations_reduce" ∨
    k = "follicular_dizziness_boost" ∨ k = "follicular_dizziness_reduce" := by
  simp only [folSymptomsPart] at h
  split_ifs at h
  · rcases hasKey_append.mp h with h | h
    · rcases hasKey_append.mp h with h | h
      · rcases symptomPair_keys h with h | h
        · exact Or.inl h
        · exact Or.inr (Or.inl h)
      · rcases symptomPair_keys h with h | h
        · exact Or.inr (Or.inr (Or.inl h))
        · exact Or.inr (Or.inr (Or.inr (Or.inl h)))
    · rcases symptomPair_keys h with h | h
      · exact Or.inr (Or.inr (Or.inr (Or.inr (Or.inl h))))
      · exact Or.inr (Or.inr (Or.inr (Or.inr (Or.inr h))))
  · exact absurd h (hasKey_nil _)

theorem lutSymptomsPart_keys {params : CohortParameters} {stats : TrackerStats}
    {k : String} (h : hasKey (lutSymptomsPart params stats) k) :
    k = "luteal_sweats_boost" ∨ k = "luteal_sweats_reduce" ∨
    k = "luteal_palpitations_boost" ∨ k = "luteal_palpitations_reduce" ∨
    k = "luteal_dizziness_boost" ∨ k = "luteal_dizziness_reduce" := by
  simp only [lutSymptomsPart] at h
  split_ifs at h
  · rcases hasKey_append.mp h with h | h
    · rcases hasKey_append.mp h with h | h
      · rcases symptomPair_keys h with h | h
        · exact Or.inl h
        · exact Or.inr (Or.inl h)
      · rcases symptomPair_keys h with h | h
        · exact Or.inr (Or.inr (Or.inl h))
        · exact Or.inr (Or.inr (Or.inr (Or.inl h)))
    · rcases symptomPair_keys h with h | h
      · exact Or.inr (Or.inr (Or.inr (Or.inr (Or.inl h))))
      · exact Or.inr (Or.inr (Or.inr (Or.inr (Or.inr h))))
  · exact absurd h (hasKey_nil _)

/-- Any key of the correction map belongs to one of the eleven emitting
blocks. -/
theorem correctionKey_cases {params : CohortParameters} {targetTotal : ℕ}
    {stats : TrackerStats} {k : String}
    (h : hasKey (getCorrectionFactors params targetTotal stats) k) :
    hasKey (phaseBalancePart stats) k ∨ hasKey (pumpRatioPart params stats) k ∨
    hasKey (agePart params stats) k ∨ hasKey (folGlucosePart params stats) k ∨
    hasKey (lutGlucosePart params stats) k ∨ hasKey (folBasalPart params stats) k ∨
    hasKey (lutBasalPart params stats) k ∨ hasKey (folAwakPart params stats) k ∨
    hasKey (lutAwakPart params stats) k ∨ hasKey (folSymptomsPart params stats) k ∨
    hasKey (lutSymptomsPart params stats) k := by
  rw [getCorrectionFactors] at h
  split_ifs at h
  · exact absurd h (hasKey_nil _)
  · exact absurd h (hasKey_nil _)
  · simp only [hasKey_append] at h
    tauto

theorem hasKey_phase_of_total {params : CohortParameters} {targetTotal : ℕ}
    {stats : TrackerStats} {k : String}
    (hk : k = "prefer_follicular" ∨ k = "prefer_luteal")
    (h : hasKey (getCorrectionFactors params targetTotal stats) k) :
    hasKey (phaseBalancePart stats) k := by
  rcases correctionKey_cases h with h|h|h|h|h|h|h|h|h|h|h
  · exact h
  · rcases hk with rfl | rfl <;> exact absurd (pumpRatioPart_keys h) (by decide)
  · rcases hk with rfl | rfl <;> exact absurd (agePart_keys h) (by decide)
  · rcases hk with rfl | rfl <;> exact absurd (folGlucosePart_keys h) (by decide)
  · rcases hk with rfl | rfl <;> exact absurd (lutGlucosePart_keys h) (by decide)
  · rcases hk with rfl | rfl <;> exact absurd (folBasalPart_keys h) (by decide)
  · rcases hk with rfl | rfl <;> exact absurd (lutBasalPart_keys h) (by decide)
  · rcases hk with rfl | rfl <;> exact absurd (folAwakPart_keys h) (by decide)
  · rcases hk with rfl | rfl <;> exact absurd (lutAwakPart_keys h) (by decide)
  · rcases hk with rfl | rfl <;> exact absurd (folSymptomsPart_keys h) (by decide)
  · rcases hk with rfl | rfl <;> exact absurd (lutSymptomsPart_keys h) (by decide)

theorem hasKey_pump_of_total {params : CohortParameters} {targetTotal : ℕ}
    {stats : TrackerStats} {k : String}
    (hk : k = "prefer_pump" ∨ k = "prefer_injection")
    (h : hasKey (getCorrectionFactors params targetTotal stats) k) :
    hasKey (pumpRatioPart params stats) k := by
  rcases correctionKey_cases h with h|h|h|h|h|h|h|h|h|h|h
  · rcases hk with rfl | rfl <;> exact absurd (phaseBalancePart_keys h) (by decide)
  · exact h
  · rcases hk with rfl | rfl <;> exact absurd (agePart_keys h) (by decide)
  · rcases hk with rfl | rfl <;> exact absurd (folGlucosePart_keys h) (by decide)
  · rcases hk with rfl | rfl <;> exact absurd (lutGlucosePart_keys h) (by decide)
  · rcases hk with rfl | rfl <;> exact absurd (folBasalPart_keys h) (by decide)
  · rcases hk with rfl | rfl <;> exact absurd (lutBasalPart_keys h) (by decide)
  · rcases hk with rfl | rfl <;> exact absurd (folAwakPart_keys h) (by decide)
  · rcases hk with rfl | rfl <;> exact absurd (lutAwakPart_keys h) (by decide)
  · rcases hk with rfl | rfl <;> exact absurd (folSymptomsPart_keys h) (by decide)
  · rcases hk with rfl | rfl <;> exact absurd (lutSymptomsPart_keys h) (by decide)

theorem hasKey_folSym_of_total {params : CohortParameters} {targetTotal : ℕ}
    {stats : TrackerStats} {k : String}
    (hk : k = "follicular_sweats_boost" ∨ k = "follicular_sweats_reduce" ∨
      k = "follicular_palpitations_boost" ∨ k = "follicular_palpitations_reduce" ∨
      k = "follicular_dizziness_boost" ∨ k = "follicular_dizziness_reduce")
    (h : hasKey (getCorrectionFactors params targetTotal stats) k) :
    hasKey (folSymptomsPart params stats) k := by
  rcases correctionKey_cases h with h|h|h|h|h|h|h|h|h|h|h
  · rcases hk with rfl|rfl|rfl|rfl|rfl|rfl <;>
      exact absurd (phaseBalancePart_keys h) (by decide)
  · rcases hk with rfl|rfl|rfl|rfl|rfl|rfl <;>
      exact absurd (pumpRatioPart_keys h) (by decide)
  · rcases hk with rfl|rfl|rfl|rfl|rfl|rfl <;>
      exact absurd (agePart_keys h) (by decide)
  · rcases hk with rfl|rfl|rfl|rfl|rfl|rfl <;>
      exact absurd (folGlucosePart_keys h) (by decide)
  · rcases hk with rfl|rfl|rfl|rfl|rfl|rfl <;>
      exact absurd (lutGlucosePart_keys h) (by decide)
  · rcases hk with rfl|rfl|rfl|rfl|rfl|rfl <;>
      exact absurd (folBasalPart_keys h) (by decide)
  · rcases hk with rfl|rfl|rfl|rfl|rfl|rfl <;>
      exact absurd (lutBasalPart_keys h) (by decide)
  · rcases hk with rfl|rfl|rfl|rfl|rfl|rfl <;>
      exact absurd (folAwakPart_keys h) (by decide)
  · rcases hk with rfl|rfl|rfl|rfl|rfl|rfl <;>
      exact absurd (lutAwakPart_keys h) (by decide)
  · exact h
  · rcases hk with rfl|rfl|rfl|rfl|rfl|rfl <;>
      exact absurd (lutSymptomsPart_keys h) (by decide)

theorem hasKey_lutSym_of_total {params : CohortParameters} {targetTotal : ℕ}
    {stats : TrackerStats} {k : String}
    (hk : k = "luteal_sweats_boost" ∨ k = "luteal_sweats_reduce" ∨
      k = "luteal_palpitations_boost" ∨ k = "luteal_palpitations_reduce" ∨
      k = "luteal_dizziness_boost" ∨ k = "luteal_dizziness_reduce")
    (h : hasKey (getCorrectionFactors params targetTotal stats) k) :
    hasKey (lutSymptomsPart params stats) k := by
  rcases correctionKey_cases h with h|h|h|h|h|h|h|h|h|h|h
  · rcases hk with rfl|rfl|rfl|rfl|rfl|rfl <;>
      exact absurd (phaseBalancePart_keys h) (by decide)
  · rcases hk with rfl|rfl|rfl|rfl|rfl|rfl <;>
      exact absurd (pumpRatioPart_keys h) (by decide)
  · rcases hk with rfl|rfl|rfl|rfl|rfl|rfl <;>
      exact absurd (agePart_keys h) (by decide)
  · rcases hk with rfl|rfl|rfl|rfl|rfl|rfl <;>
      exact absurd (folGlucosePart_keys h) (by decide)
  · rcases hk with rfl|rfl|rfl|rfl|rfl|rfl <;>
      exact absurd (lutGlucosePart_keys h) (by decide)
  · rcases hk with rfl|rfl|rfl|rfl|rfl|rfl <;>
      exact absurd (folBasalPart_keys h) (by decide)
  · rcases hk with rfl|rfl|rfl|rfl|rfl|rfl <;>
      exact absurd (lutBasalPart_keys h) (by decide)
  · rcases hk with rfl|rfl|rfl|rfl|rfl|rfl <;>
      exact absurd (folAwakPart_keys h) (by decide)
  · rcases hk with rfl|rfl|rfl|rfl|rfl|rfl <;>
      exact absurd (lutAwakPart_keys h) (by decide)
  · rcases hk with rfl|rfl|rfl|rfl|rfl|rfl <;>
      exact absurd (folSymptomsPart_keys h) (by decide)
  · exact h

theorem hasKey_in_first_of_three {P1 P2 P3 : List (String × ℚ)} {k : String}
    (h : hasKey (P1 ++ P2 ++ P3) k) (h2 : ¬ hasKey P2 k) (h3 : ¬ hasKey P3 k) :
    hasKey P1 k := by
  rcases hasKey_append.mp h with h | h
  · rcases hasKey_append.mp h with h | h
    · exact h
    · exact absurd h h2
  · exact absurd h h3

theorem hasKey_in_second_of_three {P1 P2 P3 : List (String × ℚ)} {k : String}
    (h : hasKey (P1 ++ P2 ++ P3) k) (h1 : ¬ hasKey P1 k) (h3 : ¬ hasKey P3 k) :
    hasKey P2 k := by
  rcases hasKey_append.mp h with h | h
  · rcases hasKey_append.mp h with h | h
    · exact absurd h h1
    · exact h
  · exact absurd h h3

theorem hasKey_in_third_of_three {P1 P2 P3 : List (String × ℚ)} {k : String}
    (h : hasKey (P1 ++ P2 ++ P3) k) (h1 : ¬ hasKey P1 k) (h2 : ¬ hasKey P2 k) :
    hasKey P3 k := by
  rcases hasKey_append.mp h with h | h
  · rcases hasKey_append.mp h with h | h
    · exact absurd h h1
    · exact absurd h h2
  · exact h

theorem notKey_symptomPair {rate target lowEps highEps boostVal reduceVal : ℚ}
    {boostKey reduceKey k : String} (h1 : k ≠ boostKey) (h2 : k ≠ reduceKey) :
    ¬ hasKey (symptomPair rate target lowEps highEps boostKey boostVal
      reduceKey reduceVal) k := by
  intro h
  rcases symptomPair_keys h with h | h
  · exact h1 h
  · exact h2 h

theorem folSymptomsPart_not_both_sweats {params : CohortParameters}
    {stats : TrackerStats}
    (hb : hasKey (folSymptomsPart params stats) "follicular_sweats_boost")
    (hr : hasKey (folSymptomsPart params stats) "follicular_sweats_reduce") :
    False := by
  simp only [folSymptomsPart] at hb hr
  split_ifs at hb hr
  · exact symptomPair_not_both (by decide)
      (hasKey_in_first_of_three hb (notKey_symptomPair (by decide) (by decide))
        (notKey_symptomPair (by decide) (by decide)))
      (hasKey_in_first_of_three hr (notKey_symptomPair (by decide) (by decide))
        (notKey_symptomPair (by decide) (by decide)))
  · exact hasKey_nil _ hb

theorem folSymptomsPart_not_both_palpitations {params : CohortParameters}
    {stats : TrackerStats}
    (hb : hasKey (folSymptomsPart params stats) "follicular_palpitations_boost")
    (hr : hasKey (folSymptomsPart params stats) "follicular_palpitations_reduce") :
    False := by
  simp only [folSymptomsPart] at hb hr
  split_ifs at hb hr
  · exact symptomPair_not_both (by decide)
      (hasKey_in_second_of_three hb (notKey_symptomPair (by decide) (by decide))
        (notKey_symptomPair (by decide) (by decide)))
      (hasKey_in_second_of_three hr (notKey_symptomPair (by decide) (by decide))
        (notKey_symptomPair (by decide) (by decide)))
  · exact hasKey_nil _ hb

theorem folSymptomsPart_not_both_dizziness {params : CohortParameters}
    {stats : TrackerStats}
    (hb : hasKey (folSymptomsPart params stats) "follicular_dizziness_boost")
    (hr : hasKey (folSymptomsPart params stats) "follicular_dizziness_reduce") :
    False := by
  simp only [folSymptomsPart] at hb hr
  split_ifs at hb hr
  · exact symptomPair_not_both (by decide)
      (hasKey_in_third_of_three hb (notKey_symptomPair (by decide) (by decide))
        (notKey_symptomPair (by decide) (by decide)))
      (hasKey_in_third_of_three hr (notKey_symptomPair (by decide) (by decide))
        (notKey_symptomPair (by decide) (by decide)))
  · exact hasKey_nil _ hb

theorem lutSymptomsPart_not_both_sweats {params : CohortParameters}
    {stats : TrackerStats}
    (hb : hasKey (lutSymptomsPart params stats) "luteal_sweats_boost")
    (hr : hasKey (lutSymptomsPart params stats) "luteal_sweats_reduce") :
    False := by
  simp only [lutSymptomsPart] at hb hr
  split_ifs at hb hr
  · exact symptomPair_not_both (by decide)
      (hasKey_in_first_of_three hb (notKey_symptomPair (by decide) (by decide))
        (notKey_symptomPair (by decide) (by decide)))
      (hasKey_in_first_of_three hr (notKey_symptomPair (by decide) (by decide))
        (notKey_symptomPair (by decide) (by decide)))
  · exact hasKey_nil _ hb

theorem lutSymptomsPart_not_both_palpitations {params : CohortParameters}
    {stats : TrackerStats}
    (hb : hasKey (lutSymptomsPart params stats) "luteal_palpitations_boost")
    (hr : hasKey (lutSymptomsPart params stats) "luteal_palpitations_reduce") :
    False := by
  simp only [lutSymptomsPart] at hb hr
  split_ifs at hb hr
  · exact symptomPair_not_both (by decide)
      (hasKey_in_second_of_three hb (notKey_symptomPair (by decide) (by decide))
        (notKey_symptomPair (by decide) (by decide)))
      (hasKey_in_second_of_three hr (notKey_symptomPair (by decide) (by decide))
        (notKey_symptomPair (by decide) (by decide)))
  · exact hasKey_nil _ hb

theorem lutSymptomsPart_not_both_dizziness {params : CohortParameters}
    {stats : TrackerStats}
    (hb : hasKey (lutSymptomsPart params stats) "luteal_dizziness_boost")
    (hr : hasKey (lutSymptomsPart params stats) "luteal_dizziness_reduce") :
    False := by
  simp only [lutSymptomsPart] at hb hr
  split_ifs at hb hr
  · exact symptomPair_not_both (by decide)
      (hasKey_in_third_of_three hb (notKey_symptomPair (by decide) (by decide))
        (notKey_symptomPair (by decide) (by decide)))
      (hasKey_in_third_of_three hr (notKey_symptomPair (by decide) (by decide))
        (notKey_symptomPair (by decide) (by decide)))
  · exact hasKey_nil _ hb

/-- **C10** (confirmed).  Every correction map `get_correction_factors`
returns is internally consistent: it never contains both
`prefer_follicular` and `prefer_luteal`, never both `prefer_pump` and
`prefer_injection`, and for each symptom and phase never both the
`_boost` and the `_reduce` key — each opposing pair is emitted by a single
`if/elif` block, so at most one of the two can fire. -/
theorem correctionFactors_no_opposing_keys (params : CohortParameters)
    (targetTotal : ℕ) (stats : TrackerStats) :
    ¬(hasKey (getCorrectionFactors params targetTotal stats) "prefer_follicular" ∧
      hasKey (getCorrectionFactors params targetTotal stats) "prefer_luteal") ∧
    ¬(hasKey (getCorrectionFactors params targetTotal stats) "prefer_pump" ∧
      hasKey (getCorrectionFactors params targetTotal stats) "prefer_injection") ∧
    ¬(hasKey (getCorrectionFactors params targetTotal stats) "follicular_sweats_boost" ∧
      hasKey (getCorrectionFactors params targetTotal stats) "follicular_sweats_reduce") ∧
    ¬(hasKey (getCorrectionFactors params targetTotal stats) "follicular_palpitations_boost" ∧
      hasKey (getCorrectionFactors params targetTotal stats) "follicular_palpitations_reduce") ∧
    ¬(hasKey (getCorrectionFactors params targetTotal stats) "follicular_dizziness_boost" ∧
      hasKey (getCorrectionFactors params targetTotal stats) "follicular_dizziness_reduce") ∧
    ¬(hasKey (getCorrectionFactors params targetTotal stats) "luteal_sweats_boost" ∧
      hasKey (getCorrectionFactors params targetTotal stats) "luteal_sweats_reduce") ∧
    ¬(hasKey (getCorrectionFactors params targetTotal stats) "luteal_palpitations_boost" ∧
      hasKey (getCorrectionFactors params targetTotal stats) "luteal_palpitations_reduce") ∧
    ¬(hasKey (getCorrectionFactors params targetTotal stats) "luteal_dizziness_boost" ∧
      hasKey (getCorrectionFactors params targetTotal stats) "luteal_dizziness_reduce") := by
  refine ⟨?_, ?_, ?_, ?_, ?_, ?_, ?_, ?_⟩
  · rintro ⟨ha, hb⟩
    exact phaseBalancePart_not_both
      (hasKey_phase_of_total (Or.inl rfl) ha)
      (hasKey_phase_of_total (Or.inr rfl) hb)
  · rintro ⟨ha, hb⟩
    exact pumpRatioPart_not_both
      (hasKey_pump_of_total (Or.inl rfl) ha)
      (hasKey_pump_of_total (Or.inr rfl) hb)
  · rintro ⟨ha, hb⟩
    exact folSymptomsPart_not_both_sweats
      (hasKey_folSym_of_total (Or.inl rfl) ha)
      (hasKey_folSym_of_total (Or.inr (Or.inl rfl)) hb)
  · rintro ⟨ha, hb⟩
    exact folSymptomsPart_not_both_palpitations
      (hasKey_folSym_of_total (Or.inr (Or.inr (Or.inl rfl))) ha)
      (hasKey_folSym_of_total (Or.inr (Or.inr (Or.inr (Or.inl rfl)))) hb)
  · rintro ⟨ha, hb⟩
    exact folSymptomsPart_not_both_dizziness
      (hasKey_folSym_of_total (Or.inr (Or.inr (Or.inr (Or.inr (Or.inl rfl))))) ha)
      (hasKey_folSym_of_total (Or.inr (Or.inr (Or.inr (Or.inr (Or.inr rfl))))) hb)
  · rintro ⟨ha, hb⟩
    exact lutSymptomsPart_not_both_sweats
      (hasKey_lutSym_of_total (Or.inl rfl) ha)
      (hasKey_lutSym_of_total (Or.inr (Or.inl rfl)) hb)
  · rintro ⟨ha, hb⟩
    exact lutSymptomsPart_not_both_palpitations
      (hasKey_lutSym_of_total (Or.inr (Or.inr (Or.inl rfl))) ha)
      (hasKey_lutSym_of_total (Or.inr (Or.inr (Or.inr (Or.inl rfl)))) hb)
  · rintro ⟨ha, hb⟩
    exact lutSymptomsPart_not_both_dizziness
      (hasKey_lutSym_of_total (Or.inr (Or.inr (Or.inr (Or.inr (Or.inl rfl))))) ha)
      (hasKey_lutSym_of_total (Or.inr (Or.inr (Or.inr (Or.inr (Or.inr rfl))))) hb)

/-! ## C7: the intervention-effect shift -/
theorem qmax_qmin_id (x : ℚ) (h1 : 70 ≤ x) (h2 : x ≤ 180) :
    qmax 70 (qmin 180 x) = x := by
  unfold qmin qmax
  split_ifs with ha hb
  · exact (le_antisymm h2 ha).symm
  · linarith
  · rfl

theorem round1_shift_sum (shift : ℚ) :
    ∀ l : List ℚ, (l.map fun g => round1 (g + shift)).sum =
      l.sum + l.length * shift +
        (l.map fun g => round1 (g + shift) - (g + shift)).sum := by
  intro l
  induction l with
  | nil => simp
  | cons a t ih =>
    simp only [List.map_cons, List.sum_cons, List.length_cons, ih]
    push_cast
    ring

theorem list_sum_abs_le (f : ℚ → ℚ) (c : ℚ) (hc : ∀ x, |f x| ≤ c) :
    ∀ l : List ℚ, |(l.map f).sum| ≤ l.length * c := by
  intro l
  induction l with
  | nil => simp
  | cons a t ih =>
    simp only [List.map_cons, List.sum_cons, List.length_cons]
    have h1 : |f a + (t.map f).sum| ≤ |f a| + |(t.map f).sum| := abs_add _ _
    have h2 : |f a| ≤ c := hc a
    push_cast
    nlinarith [ih]

/-- **C7** (amended, proved).  `adjust_intervention_effect` on a non-empty
intervention-luteal glucose list: if the mean is within 0.5 of
`target = follicular baseline + 10% of the standard luteal increase` it
changes nothing; otherwise it rewrites every value to
`round(clamp(g + (target − mean), 70, 180), 1)`, and — whenever no value
is clamped — the new mean equals the target only up to the one-decimal
rounding, within 1/20.  It does *not* equal the target exactly (see the
counterexample). -/
theorem adjustInterventionEffect_spec (params : CohortParameters)
    (vals : List ℚ) (hne : vals ≠ []) :
    (ratAbs (listMean vals - interventionTargetGlucose params) < 1/2 →
      adjustInterventionEffectVals params vals = vals) ∧
    (¬ ratAbs (listMean vals - interventionTargetGlucose params) < 1/2 →
      (∀ g ∈ vals, 70 ≤ g + (interventionTargetGlucose params - listMean vals) ∧
        g + (interventionTargetGlucose params - listMean vals) ≤ 180) →
      ratAbs (listMean (adjustInterventionEffectVals params vals) -
        interventionTargetGlucose params) ≤ 1/20) := by
  have hlen : ¬ vals.length = 0 := fun h => hne (List.length_eq_zero.mp h)
  constructor
  · intro h
    rw [adjustInterventionEffectVals]
    rw [if_neg hlen, if_pos h]
  · intro htol hclamp
    have hres : adjustInterventionEffectVals params vals =
        vals.map (fun g =>
          round1 (g + (interventionTargetGlucose params - listMean vals))) := by
      rw [adjustInterventionEffectVals]
      rw [if_neg hlen, if_neg htol]
      apply List.map_congr_left
      intro g hg
      rw [qmax_qmin_id _ (hclamp g hg).1 (hclamp g hg).2]
    have hnpos : (0 : ℚ) < vals.length := by
      have : 0 < vals.length := Nat.pos_of_ne_zero hlen
      exact_mod_cast this
    have hD := list_sum_abs_le
      (fun g => round1 (g + (interventionTargetGlucose params - listMean vals)) -
        (g + (interventionTargetGlucose params - listMean vals))) (1/20)
      (fun x => abs_round1_sub_le _) vals
    rw [hres, ratAbs_eq_abs]
    have hmean : listMean (vals.map fun g =>
        round1 (g + (interventionTargetGlucose params - listMean vals))) -
        interventionTargetGlucose params =
        ((vals.map fun g =>
          round1 (g + (interventionTargetGlucose params - listMean vals)) -
            (g + (interventionTargetGlucose params - listMean vals))).sum) /
          vals.length := by
      rw [listMean, List.length_map, round1_shift_sum, listMean]
      field_simp
      ring
    rw [hmean, abs_div, abs_of_pos hnpos, div_le_iff₀ hnpos]
    calc |(vals.map fun g =>
          round1 (g + (interventionTargetGlucose params - listMean vals)) -
            (g + (interventionTargetGlucose params - listMean vals))).sum|
        ≤ vals.length * (1/20) := hD
      _ = 1/20 * vals.length := by ring

/-- **C7** (counterexample).  On the single intervention-luteal record with
glucose 180 (default parameters, target 118.81) the shifted value is
rounded to one decimal, so the new mean is 118.8 ≠ 118.81: the mean does
not equal the target exactly. -/
theorem adjustInterventionEffect_mean_not_exact :
    adjustInterventionEffectVals defaultCohortParams [180] = [594/5] ∧
      listMean [(594/5 : ℚ)] ≠ interventionTargetGlucose defaultCohortParams := by
  constructor
  · have hfr : Int.fract ((11881 : ℚ)/10) = 1/10 := by
      rw [Int.fract]
      norm_num
    norm_num [adjustInterventionEffectVals, interventionTargetGlucose, listMean,
      ratAbs, qmax, qmin, round1, rndHalfEvenZ, defaultCohortParams, hfr]
  · norm_num [listMean, interventionTargetGlucose, defaultCohortParams]

/-- Witness for the amended C7 on the glucose list `[120, 120]`: no value
is clamped and the final mean lands within 1/20 of the 118.81 target. -/
theorem adjustInterventionEffect_spec_witness :
    ratAbs (listMean (adjustInterventionEffectVals defaultCohortParams [120, 120]) -
      interventionTargetGlucose defaultCohortParams) ≤ 1/20 := by
  apply (adjustInterventionEffect_spec defaultCohortParams [120, 120] (by decide)).2
  · norm_num [listMean, interventionTargetGlucose, ratAbs, defaultCohortParams]
  · intro g hg
    simp only [List.mem_cons, List.not_mem_nil, or_false] at hg
    rcases hg with rfl | rfl <;>
      constructor <;>
        norm_num [listMean, interventionTargetGlucose, defaultCohortParams]

/-- **C1** (counterexample).  Two executions of the pipeline with the
identical seed and identical arguments are two invocations at different
wall-clock instants; `build_response` writes `datetime.now()` into every
document's `authored` field, so the serialized documents differ byte for
byte even though every seeded draw is identical. -/
theorem buildResponse_not_clock_independent :
    buildResponse c1Profile "patient-0001" "2024-01-01T00:00:00.000001+00:00" ≠
      buildResponse c1Profile "patient-0001" "2024-01-01T00:00:00.000002+00:00" := by
  decide

/-- **C1** (amended, proved).  The generation pipeline is deterministic in
the seed, the arguments *and* the wall-clock readings: with the same
profile (the pure function of the seeded draws) and patient id, two built
documents are byte-identical exactly when the `datetime.now()` timestamps
they embed are equal — and the schedule's observation dates shift with the
base `datetime.now()` as well. -/
theorem buildResponse_eq_iff_same_clock (profile : Observation)
    (patientId : String) (now1 now2 : String) :
    (buildResponse profile patientId now1 = buildResponse profile patientId now2 ↔
      now1 = now2) ∧
    (∀ base1 base2 offset : ℤ, scheduleObservationDate base1 offset =
      scheduleObservationDate base2 offset ↔ base1 = base2) := by
  constructor
  · constructor
    · intro h
      exact congrArg SerializedResponse.authored h
    · intro h
      rw [h]
  · intro base1 base2 offset
    constructor
    · intro h
      simpa [scheduleObservationDate] using h
    · intro h
      rw [h]

end SynthT1D
